import Mathlib

/-!
# Zephyr glue layer of the graphics library (`zephyr/lvgl.c`)

A shallow embedding of the rendering-buffer allocator, of the keyboard-scan
pointer input path, of the logging callback and of the initialisation
sequence, followed by theorems about them.

Conventions of the embedding:

* every C function keeps its name; mutable objects reached through pointers are
  passed in and returned explicitly;
* variables whose fixed-width type is declared in the source
  (`uint16_t buf_nbr_pixels`, `uint32_t buf_size`) are reduced modulo `2 ^ 16`
  and `2 ^ 32` where they are assigned;
* build-time options (`CONFIG_...`, `IS_ENABLED(...)`, `#ifdef`) are fields of
  `Kconfig`, so that one definition covers every build;
* pointers are natural numbers, `0` being `NULL`;
* calls to collaborators whose code is outside the file are recorded in
  traces, and their outcomes are arbitrary inputs of the definitions.
-/

namespace LvglZephyr

/-! ## Types declared outside the source file -/

/-- Pixel formats of `enum display_pixel_format` (display driver API). The
five formats named in the source are constructors; `PIXEL_FORMAT_OTHER v`
stands for any other enumerator. -/
inductive display_pixel_format where
  | PIXEL_FORMAT_RGB_888
  | PIXEL_FORMAT_MONO01
  | PIXEL_FORMAT_MONO10
  | PIXEL_FORMAT_ARGB_8888
  | PIXEL_FORMAT_RGB_565
  | PIXEL_FORMAT_OTHER (v : Nat)
  deriving DecidableEq, Repr

/-- Orientations of `enum display_orientation` (display driver API). -/
inductive display_orientation where
  | DISPLAY_ORIENTATION_NORMAL
  | DISPLAY_ORIENTATION_ROTATED_90
  | DISPLAY_ORIENTATION_ROTATED_180
  | DISPLAY_ORIENTATION_ROTATED_270
  deriving DecidableEq, Repr

/-- The fields of `struct display_capabilities` that the source reads. It is
declared by the display driver API, where both resolutions are `uint16_t`;
the two proof fields record that range. -/
structure display_capabilities where
  x_resolution : Nat
  y_resolution : Nat
  current_pixel_format : display_pixel_format
  current_orientation : display_orientation
  x_resolution_lt : x_resolution < 65536
  y_resolution_lt : y_resolution < 65536

/-- Build-time configuration: the `CONFIG_...` options the source refers to.
`CONFIG_LV_Z_BUFFER_ALLOC_STATIC` is not a field: the two variants of
`lvgl_allocate_rendering_buffers` are two definitions. `sizeof_lv_disp_draw_buf_t`
is `sizeof(lv_disp_draw_buf_t)`, a constant of the library headers. -/
structure Kconfig where
  CONFIG_LV_Z_VDB_SIZE : Int
  CONFIG_LV_Z_DOUBLE_VDB : Bool
  CONFIG_LV_Z_BITS_PER_PIXEL : Int
  CONFIG_LV_Z_HOR_RES_MAX : Int
  CONFIG_LV_Z_VER_RES_MAX : Int
  CONFIG_LV_Z_POINTER_KSCAN_SWAP_XY : Bool
  CONFIG_LV_Z_POINTER_KSCAN_INVERT_X : Bool
  CONFIG_LV_Z_POINTER_KSCAN_INVERT_Y : Bool
  CONFIG_LV_Z_POINTER_KSCAN_MSGQ_COUNT : Nat
  sizeof_lv_disp_draw_buf_t : Nat

/-! ## Error numbers -/

/-- Error number `ENOTSUP` of the C library headers of the operating system. -/
def ENOTSUP : Int := 134

/-- Error number `ENOMEM`. -/
def ENOMEM : Int := 12

/-- Error number `ENODEV`. -/
def ENODEV : Int := 19

/-- Error number `EPERM`. -/
def EPERM : Int := 1

/-! ## Fixed-width conversions -/

/-- Conversion of an integer value to `uint16_t`: reduction modulo `2 ^ 16`. -/
def to_uint16 (z : Int) : Nat := (z % 65536).toNat

/-- Conversion of an integer value to `uint32_t`: reduction modulo `2 ^ 32`. -/
def to_uint32 (z : Int) : Nat := (z % 4294967296).toNat

/-! ## Rendering buffers: data -/

/-- The fields of the display driver `lv_disp_drv_t` that the source assigns:
the resolution and the pointer `draw_buf` to the draw-buffer descriptor
(`0` is `NULL`). The field `user_data` holds the display device, whose answer
to `display_get_capabilities` is passed to the functions as `cap`. The two
resolutions have the coordinate type `lv_coord_t` of `lv_point_t`. -/
structure lv_disp_drv_t where
  hor_res : Int
  ver_res : Int
  draw_buf : Nat
  deriving DecidableEq, Repr

/-- One call `lv_disp_draw_buf_init(draw_buf, buf1, buf2, size_in_px_cnt)` of
the graphics library: the descriptor at `draw_buf` receives the two buffers
and the pixel capacity (`uint32_t size_in_px_cnt`). -/
structure lv_disp_draw_buf_init_call where
  draw_buf : Nat
  buf1 : Nat
  buf2 : Nat
  size_in_px_cnt : Nat
  deriving DecidableEq, Repr

/-- Modelled from the spec: the allocator behind `LV_MEM_CUSTOM_ALLOC` and
`LV_MEM_CUSTOM_FREE` (macros of the library configuration, not in the source
file), as an explicit collection of live blocks. `live` holds the addresses
obtained and not yet released, `brk` is the last address handed out,
`requests` the sizes requested so far and `released` the addresses released so
far, both oldest first. -/
structure heap_state where
  live : List Nat
  brk : Nat
  requests : List Nat
  released : List Nat
  deriving DecidableEq, Repr

/-- Modelled from the spec: `LV_MEM_CUSTOM_ALLOC(size)`. The outcome of the
request number `k` (counted over the whole life of the heap) is `oracle k`,
an arbitrary choice of success or failure. A failed request returns `NULL`
(`0`); a successful one returns a fresh non-null address and makes the block
live. -/
def LV_MEM_CUSTOM_ALLOC (oracle : Nat → Bool) (h : heap_state) (size : Nat) : Nat × heap_state :=
  if oracle h.requests.length then
    (h.brk + 1,
      { h with live := (h.brk + 1) :: h.live, brk := h.brk + 1, requests := h.requests ++ [size] })
  else
    (0, { h with requests := h.requests ++ [size] })

/-- Modelled from the spec: `LV_MEM_CUSTOM_FREE(p)`. Releasing `NULL` does
nothing; releasing an address removes the block from the live ones. -/
def LV_MEM_CUSTOM_FREE (h : heap_state) (p : Nat) : heap_state :=
  if p = 0 then h
  else { h with live := h.live.erase p, released := h.released ++ [p] }

/-- What `lvgl_allocate_rendering_buffers` reads and writes: the display driver
`disp_drv`, the heap, and the calls of `lv_disp_draw_buf_init` made so far
(oldest first). -/
structure alloc_state where
  disp_drv : lv_disp_drv_t
  heap : heap_state
  draw_buf_init : List lv_disp_draw_buf_init_call
  deriving DecidableEq, Repr

/-! ## Rendering buffers: static allocation (`CONFIG_LV_Z_BUFFER_ALLOC_STATIC`) -/

namespace BufferAllocStatic

/-- The macro `BUFFER_SIZE`:
`(BITS_PER_PIXEL * ((VDB_SIZE * HOR_RES_MAX * VER_RES_MAX) / 100) / 8)`,
with the truncating division of C. -/
def BUFFER_SIZE (cfg : Kconfig) : Int :=
  Int.tdiv
    (cfg.CONFIG_LV_Z_BITS_PER_PIXEL *
      Int.tdiv
        (cfg.CONFIG_LV_Z_VDB_SIZE * cfg.CONFIG_LV_Z_HOR_RES_MAX * cfg.CONFIG_LV_Z_VER_RES_MAX)
        100)
    8

/-- The macro `NBR_PIXELS_IN_BUFFER`: `(BUFFER_SIZE * 8 / BITS_PER_PIXEL)`. -/
def NBR_PIXELS_IN_BUFFER (cfg : Kconfig) : Int :=
  Int.tdiv (BUFFER_SIZE cfg * 8) cfg.CONFIG_LV_Z_BITS_PER_PIXEL

/-- Address of the static descriptor `disp_buf`. -/
def disp_buf : Nat := 1

/-- Address of the static buffer `buf0`. -/
def buf0 : Nat := 2

/-- Address of the static buffer `buf1`. -/
def buf1 : Nat := 3

/-- The static variant of `lvgl_allocate_rendering_buffers`. -/
def lvgl_allocate_rendering_buffers (cfg : Kconfig) (cap : display_capabilities)
    (s : alloc_state) : Int × alloc_state :=
  let disp_drv := s.disp_drv
  let err : Int := 0
  -- display_get_capabilities(display_dev, &cap)
  let (disp_drv, err) :=
    if (cap.x_resolution : Int) ≤ cfg.CONFIG_LV_Z_HOR_RES_MAX then
      ({ disp_drv with hor_res := (cap.x_resolution : Int) }, err)
    else
      (disp_drv, -ENOTSUP)
  let (disp_drv, err) :=
    if (cap.y_resolution : Int) ≤ cfg.CONFIG_LV_Z_VER_RES_MAX then
      ({ disp_drv with ver_res := (cap.y_resolution : Int) }, err)
    else
      (disp_drv, -ENOTSUP)
  let disp_drv := { disp_drv with draw_buf := disp_buf }
  let call : lv_disp_draw_buf_init_call :=
    if cfg.CONFIG_LV_Z_DOUBLE_VDB then
      { draw_buf := disp_drv.draw_buf, buf1 := buf0, buf2 := buf1,
        size_in_px_cnt := to_uint32 (NBR_PIXELS_IN_BUFFER cfg) }
    else
      { draw_buf := disp_drv.draw_buf, buf1 := buf0, buf2 := 0,
        size_in_px_cnt := to_uint32 (NBR_PIXELS_IN_BUFFER cfg) }
  (err, { s with disp_drv := disp_drv, draw_buf_init := s.draw_buf_init ++ [call] })

end BufferAllocStatic

/-! ## Rendering buffers: dynamic allocation -/

namespace BufferAllocDynamic

/-- The variable `buf_nbr_pixels` (a `uint16_t`) after lines 132 to 137 of the
source: the percentage of the display area, stored in 16 bits, then raised to
one horizontal line. The product is formed in `int`; it is taken exactly. -/
def buf_nbr_pixels (cfg : Kconfig) (disp_drv : lv_disp_drv_t) : Nat :=
  let buf_nbr_pixels : Nat :=
    to_uint16 (Int.tdiv (cfg.CONFIG_LV_Z_VDB_SIZE * disp_drv.hor_res * disp_drv.ver_res) 100)
  -- one horizontal line is the minimum buffer requirement for lvgl
  if (buf_nbr_pixels : Int) < disp_drv.hor_res then
    to_uint16 disp_drv.hor_res
  else
    buf_nbr_pixels

/-- The variable `buf_size` (a `uint32_t`) after the `switch` on the current
pixel format; `none` is the `default:` branch, which returns `-ENOTSUP`. -/
def buf_size (fmt : display_pixel_format) (buf_nbr_pixels : Nat) : Option Nat :=
  match fmt with
  | display_pixel_format.PIXEL_FORMAT_ARGB_8888 => some (to_uint32 (4 * (buf_nbr_pixels : Int)))
  | display_pixel_format.PIXEL_FORMAT_RGB_888 => some (to_uint32 (3 * (buf_nbr_pixels : Int)))
  | display_pixel_format.PIXEL_FORMAT_RGB_565 => some (to_uint32 (2 * (buf_nbr_pixels : Int)))
  | display_pixel_format.PIXEL_FORMAT_MONO01 | display_pixel_format.PIXEL_FORMAT_MONO10 =>
    let buf_size : Nat := to_uint32 (Int.tdiv (buf_nbr_pixels : Int) 8)
    some (to_uint32 ((buf_size : Int) + (if Int.tmod (buf_nbr_pixels : Int) 8 = 0 then 0 else 1)))
  | display_pixel_format.PIXEL_FORMAT_OTHER _ => none

/-- The dynamic variant of `lvgl_allocate_rendering_buffers`. -/
def lvgl_allocate_rendering_buffers (cfg : Kconfig) (cap : display_capabilities)
    (oracle : Nat → Bool) (s : alloc_state) : Int × alloc_state :=
  let buf1 : Nat := 0
  -- display_get_capabilities(display_dev, &cap)
  let disp_drv : lv_disp_drv_t :=
    { s.disp_drv with hor_res := (cap.x_resolution : Int), ver_res := (cap.y_resolution : Int) }
  let buf_nbr_pixels : Nat := buf_nbr_pixels cfg disp_drv
  match buf_size cap.current_pixel_format buf_nbr_pixels with
  | none => (-ENOTSUP, { s with disp_drv := disp_drv })
  | some buf_size =>
    let (buf0, heap) := LV_MEM_CUSTOM_ALLOC oracle s.heap buf_size
    if buf0 = 0 then
      (-ENOMEM, { s with disp_drv := disp_drv, heap := heap })
    else
      let (buf1, heap) :=
        if cfg.CONFIG_LV_Z_DOUBLE_VDB then LV_MEM_CUSTOM_ALLOC oracle heap buf_size
        else (buf1, heap)
      if cfg.CONFIG_LV_Z_DOUBLE_VDB ∧ buf1 = 0 then
        let heap := LV_MEM_CUSTOM_FREE heap buf0
        (-ENOMEM, { s with disp_drv := disp_drv, heap := heap })
      else
        let (draw_buf, heap) := LV_MEM_CUSTOM_ALLOC oracle heap cfg.sizeof_lv_disp_draw_buf_t
        let disp_drv : lv_disp_drv_t := { disp_drv with draw_buf := draw_buf }
        if disp_drv.draw_buf = 0 then
          let heap := LV_MEM_CUSTOM_FREE heap buf0
          let heap := LV_MEM_CUSTOM_FREE heap buf1
          (-ENOMEM, { s with disp_drv := disp_drv, heap := heap })
        else
          let call : lv_disp_draw_buf_init_call :=
            { draw_buf := disp_drv.draw_buf, buf1 := buf0, buf2 := buf1,
              size_in_px_cnt := buf_nbr_pixels }
          (0, { disp_drv := disp_drv, heap := heap,
                draw_buf_init := s.draw_buf_init ++ [call] })

end BufferAllocDynamic

/-! ## Pointer input: data -/

/-- States of `lv_indev_state_t`. -/
inductive lv_indev_state_t where
  | LV_INDEV_STATE_REL
  | LV_INDEV_STATE_PR
  deriving DecidableEq, Repr

/-- Modelled from the spec: a point `lv_point_t`. Its coordinate type
`lv_coord_t` is declared in the headers of the graphics library and not in the
source file; the data model of the spec gives coordinates as `int`, and they
are exact integers here, so coordinate arithmetic never wraps. -/
structure lv_point_t where
  x : Int
  y : Int
  deriving DecidableEq, Repr

/-- The fields of `lv_indev_data_t` that the source assigns: the point and the
state. The remaining fields of the library structure are copied along
unchanged by every assignment of the source and are left out. -/
structure lv_indev_data_t where
  point : lv_point_t
  state : lv_indev_state_t
  deriving DecidableEq, Repr

/-- Static state of the pointer path: the message queue `kscan_msgq` (oldest
message first) and the function-static `prev` of `lvgl_pointer_kscan_read`. -/
structure kscan_state where
  kscan_msgq : List lv_indev_data_t
  prev : lv_indev_data_t
  deriving DecidableEq, Repr

/-- Initial value of the static `prev`: `(0, 0, LV_INDEV_STATE_REL)`. -/
def prev_init : lv_indev_data_t :=
  { point := { x := 0, y := 0 }, state := lv_indev_state_t.LV_INDEV_STATE_REL }

/-- Modelled from the spec: `k_msgq_get(&kscan_msgq, &curr, K_NO_WAIT)`, the
non-blocking dequeue of the kernel message queue (kernel code, not in the
source file). On an empty queue it fails (`none`, a non-zero return value);
otherwise it yields the oldest message and the remaining queue. -/
def k_msgq_get (q : List lv_indev_data_t) : Option (lv_indev_data_t × List lv_indev_data_t) :=
  match q with
  | [] => none
  | m :: rest => some (m, rest)

/-! ## Pointer input: `lvgl_pointer_kscan_read` -/

/-- The function `lvgl_pointer_kscan_read`. `cap` is what
`display_get_capabilities` reports during this call. The result is the value
stored in `*data` and the new static state. -/
def lvgl_pointer_kscan_read (cfg : Kconfig) (cap : display_capabilities) (s : kscan_state) :
    lv_indev_data_t × kscan_state :=
  match k_msgq_get s.kscan_msgq with
  | none =>
    -- goto set_and_release
    (s.prev, s)
  | some (curr, q) =>
    let prev : lv_indev_data_t := curr
    -- adjust kscan coordinates
    let prev : lv_indev_data_t :=
      if cfg.CONFIG_LV_Z_POINTER_KSCAN_SWAP_XY then
        let x := prev.point.x
        let prev : lv_indev_data_t := { prev with point := { prev.point with x := prev.point.y } }
        { prev with point := { prev.point with y := x } }
      else prev
    let prev : lv_indev_data_t :=
      if cfg.CONFIG_LV_Z_POINTER_KSCAN_INVERT_X then
        if cap.current_orientation = display_orientation.DISPLAY_ORIENTATION_NORMAL ∨
            cap.current_orientation = display_orientation.DISPLAY_ORIENTATION_ROTATED_180 then
          { prev with point := { prev.point with x := (cap.x_resolution : Int) - prev.point.x } }
        else
          { prev with point := { prev.point with x := (cap.y_resolution : Int) - prev.point.x } }
      else prev
    let prev : lv_indev_data_t :=
      if cfg.CONFIG_LV_Z_POINTER_KSCAN_INVERT_Y then
        if cap.current_orientation = display_orientation.DISPLAY_ORIENTATION_NORMAL ∨
            cap.current_orientation = display_orientation.DISPLAY_ORIENTATION_ROTATED_180 then
          { prev with point := { prev.point with y := (cap.y_resolution : Int) - prev.point.y } }
        else
          { prev with point := { prev.point with y := (cap.x_resolution : Int) - prev.point.y } }
      else prev
    -- rotate touch point to match display rotation
    let prev : lv_indev_data_t :=
      if cap.current_orientation = display_orientation.DISPLAY_ORIENTATION_ROTATED_90 then
        let x := prev.point.x
        let prev : lv_indev_data_t := { prev with point := { prev.point with x := prev.point.y } }
        { prev with point := { prev.point with y := (cap.y_resolution : Int) - x } }
      else if cap.current_orientation = display_orientation.DISPLAY_ORIENTATION_ROTATED_180 then
        let prev : lv_indev_data_t :=
          { prev with point := { prev.point with x := (cap.x_resolution : Int) - prev.point.x } }
        { prev with point := { prev.point with y := (cap.y_resolution : Int) - prev.point.y } }
      else if cap.current_orientation = display_orientation.DISPLAY_ORIENTATION_ROTATED_270 then
        let x := prev.point.x
        let prev : lv_indev_data_t :=
          { prev with point := { prev.point with x := (cap.x_resolution : Int) - prev.point.y } }
        { prev with point := { prev.point with y := x } }
      else prev
    -- set_and_release
    (prev, { kscan_msgq := q, prev := prev })

/-! ## Pointer input: the transform chain as the specification words it -/

/-- Step 1 of the chain, axis swap: exchange x and y when enabled. -/
def spec_swap (enabled : Bool) (p : lv_indev_data_t) : lv_indev_data_t :=
  if enabled then { point := { x := p.point.y, y := p.point.x }, state := p.state } else p

/-- Limit of the invert-X step: `x_resolution` for NORMAL and ROTATED_180,
`y_resolution` for ROTATED_90 and ROTATED_270. -/
def spec_limit_x (cap : display_capabilities) : Int :=
  match cap.current_orientation with
  | display_orientation.DISPLAY_ORIENTATION_NORMAL => cap.x_resolution
  | display_orientation.DISPLAY_ORIENTATION_ROTATED_180 => cap.x_resolution
  | display_orientation.DISPLAY_ORIENTATION_ROTATED_90 => cap.y_resolution
  | display_orientation.DISPLAY_ORIENTATION_ROTATED_270 => cap.y_resolution

/-- Limit of the invert-Y step: `y_resolution` for NORMAL and ROTATED_180,
`x_resolution` for ROTATED_90 and ROTATED_270. -/
def spec_limit_y (cap : display_capabilities) : Int :=
  match cap.current_orientation with
  | display_orientation.DISPLAY_ORIENTATION_NORMAL => cap.y_resolution
  | display_orientation.DISPLAY_ORIENTATION_ROTATED_180 => cap.y_resolution
  | display_orientation.DISPLAY_ORIENTATION_ROTATED_90 => cap.x_resolution
  | display_orientation.DISPLAY_ORIENTATION_ROTATED_270 => cap.x_resolution

/-- Step 2 of the chain, invert X: replace x with `limit - x` when enabled. -/
def spec_invert_x (enabled : Bool) (cap : display_capabilities) (p : lv_indev_data_t) :
    lv_indev_data_t :=
  if enabled then { point := { x := spec_limit_x cap - p.point.x, y := p.point.y }, state := p.state }
  else p

/-- Step 3 of the chain, invert Y: replace y with `limit - y` when enabled. -/
def spec_invert_y (enabled : Bool) (cap : display_capabilities) (p : lv_indev_data_t) :
    lv_indev_data_t :=
  if enabled then { point := { x := p.point.x, y := spec_limit_y cap - p.point.y }, state := p.state }
  else p

/-- Step 4 of the chain, orientation rotation:
ROTATED_90 gives `(y, y_resolution - x)`, ROTATED_180 gives
`(x_resolution - x, y_resolution - y)`, ROTATED_270 gives
`(x_resolution - y, x)`, NORMAL is the identity. -/
def spec_rotate (cap : display_capabilities) (p : lv_indev_data_t) : lv_indev_data_t :=
  match cap.current_orientation with
  | display_orientation.DISPLAY_ORIENTATION_NORMAL => p
  | display_orientation.DISPLAY_ORIENTATION_ROTATED_90 =>
    { point := { x := p.point.y, y := (cap.y_resolution : Int) - p.point.x }, state := p.state }
  | display_orientation.DISPLAY_ORIENTATION_ROTATED_180 =>
    { point := { x := (cap.x_resolution : Int) - p.point.x,
                 y := (cap.y_resolution : Int) - p.point.y }, state := p.state }
  | display_orientation.DISPLAY_ORIENTATION_ROTATED_270 =>
    { point := { x := (cap.x_resolution : Int) - p.point.y, y := p.point.x }, state := p.state }

/-- The whole chain in the order of the specification: swap, invert X,
invert Y, rotate. -/
def spec_transform (cfg : Kconfig) (cap : display_capabilities) (raw : lv_indev_data_t) :
    lv_indev_data_t :=
  spec_rotate cap
    (spec_invert_y cfg.CONFIG_LV_Z_POINTER_KSCAN_INVERT_Y cap
      (spec_invert_x cfg.CONFIG_LV_Z_POINTER_KSCAN_INVERT_X cap
        (spec_swap cfg.CONFIG_LV_Z_POINTER_KSCAN_SWAP_XY raw)))

/-! ## Rendering buffers: bytes per pixel as the specification words it -/

/-- Bytes per pixel of the colour formats, from the specification:
ARGB8888 has 4, RGB888 has 3, RGB565 has 2. -/
def spec_bytes_per_pixel (fmt : display_pixel_format) : Option Nat :=
  match fmt with
  | display_pixel_format.PIXEL_FORMAT_ARGB_8888 => some 4
  | display_pixel_format.PIXEL_FORMAT_RGB_888 => some 3
  | display_pixel_format.PIXEL_FORMAT_RGB_565 => some 2
  | _ => none

/-! ## Concrete inputs for the evaluations -/

/-- A fresh state: zeroed driver, empty heap, no descriptor initialised. -/
def fresh_state : alloc_state :=
  { disp_drv := { hor_res := 0, ver_res := 0, draw_buf := 0 },
    heap := { live := [], brk := 0, requests := [], released := [] },
    draw_buf_init := [] }

/-- A build with a full-frame buffer (`CONFIG_LV_Z_VDB_SIZE=100`), double
buffering, 16 bits per pixel, ceilings 480 by 320, no pointer adjustment. -/
def config_full_frame : Kconfig :=
  { CONFIG_LV_Z_VDB_SIZE := 100, CONFIG_LV_Z_DOUBLE_VDB := true,
    CONFIG_LV_Z_BITS_PER_PIXEL := 16, CONFIG_LV_Z_HOR_RES_MAX := 480,
    CONFIG_LV_Z_VER_RES_MAX := 320, CONFIG_LV_Z_POINTER_KSCAN_SWAP_XY := false,
    CONFIG_LV_Z_POINTER_KSCAN_INVERT_X := false, CONFIG_LV_Z_POINTER_KSCAN_INVERT_Y := false,
    CONFIG_LV_Z_POINTER_KSCAN_MSGQ_COUNT := 10, sizeof_lv_disp_draw_buf_t := 28 }

/-- A 320 by 240 display in RGB565, normal orientation. -/
def cap_320x240_rgb565 : display_capabilities :=
  { x_resolution := 320, y_resolution := 240,
    current_pixel_format := display_pixel_format.PIXEL_FORMAT_RGB_565,
    current_orientation := display_orientation.DISPLAY_ORIENTATION_NORMAL,
    x_resolution_lt := by decide, y_resolution_lt := by decide }

/-- A build for a monochrome panel: one percent buffer, single buffering, one
bit per pixel, ceilings 128 by 64. -/
def config_mono_small : Kconfig :=
  { CONFIG_LV_Z_VDB_SIZE := 1, CONFIG_LV_Z_DOUBLE_VDB := false,
    CONFIG_LV_Z_BITS_PER_PIXEL := 1, CONFIG_LV_Z_HOR_RES_MAX := 128,
    CONFIG_LV_Z_VER_RES_MAX := 64, CONFIG_LV_Z_POINTER_KSCAN_SWAP_XY := false,
    CONFIG_LV_Z_POINTER_KSCAN_INVERT_X := false, CONFIG_LV_Z_POINTER_KSCAN_INVERT_Y := false,
    CONFIG_LV_Z_POINTER_KSCAN_MSGQ_COUNT := 10, sizeof_lv_disp_draw_buf_t := 28 }

/-- A 128 by 64 monochrome display, normal orientation. -/
def cap_128x64_mono : display_capabilities :=
  { x_resolution := 128, y_resolution := 64,
    current_pixel_format := display_pixel_format.PIXEL_FORMAT_MONO01,
    current_orientation := display_orientation.DISPLAY_ORIENTATION_NORMAL,
    x_resolution_lt := by decide, y_resolution_lt := by decide }

/-- A display reporting a pixel format outside the five handled ones. -/
def cap_320x240_other : display_capabilities :=
  { x_resolution := 320, y_resolution := 240,
    current_pixel_format := display_pixel_format.PIXEL_FORMAT_OTHER 32,
    current_orientation := display_orientation.DISPLAY_ORIENTATION_NORMAL,
    x_resolution_lt := by decide, y_resolution_lt := by decide }

/-- A 100 by 200 display rotated by 90 degrees. -/
def cap_100x200_rotated_90 : display_capabilities :=
  { x_resolution := 100, y_resolution := 200,
    current_pixel_format := display_pixel_format.PIXEL_FORMAT_RGB_565,
    current_orientation := display_orientation.DISPLAY_ORIENTATION_ROTATED_90,
    x_resolution_lt := by decide, y_resolution_lt := by decide }

/-- A build whose pointer path inverts both axes and does not swap them. -/
def config_invert_xy : Kconfig :=
  { CONFIG_LV_Z_VDB_SIZE := 10, CONFIG_LV_Z_DOUBLE_VDB := false,
    CONFIG_LV_Z_BITS_PER_PIXEL := 16, CONFIG_LV_Z_HOR_RES_MAX := 480,
    CONFIG_LV_Z_VER_RES_MAX := 320, CONFIG_LV_Z_POINTER_KSCAN_SWAP_XY := false,
    CONFIG_LV_Z_POINTER_KSCAN_INVERT_X := true, CONFIG_LV_Z_POINTER_KSCAN_INVERT_Y := true,
    CONFIG_LV_Z_POINTER_KSCAN_MSGQ_COUNT := 10, sizeof_lv_disp_draw_buf_t := 28 }

/-- A 100 by 200 display rotated by 180 degrees. -/
def cap_100x200_rotated_180 : display_capabilities :=
  { x_resolution := 100, y_resolution := 200,
    current_pixel_format := display_pixel_format.PIXEL_FORMAT_RGB_565,
    current_orientation := display_orientation.DISPLAY_ORIENTATION_ROTATED_180,
    x_resolution_lt := by decide, y_resolution_lt := by decide }

/-- A pressed sample at (3, 4). -/
def sample_3_4 : lv_indev_data_t :=
  { point := { x := 3, y := 4 }, state := lv_indev_state_t.LV_INDEV_STATE_PR }

/-! ## Pointer input: the producer side and successive polls -/

/-- Error number `ENOMSG`. -/
def ENOMSG : Int := 35

/-- The two timeouts of the kernel API that matter for the message queue. -/
inductive k_timeout_t where
  | K_NO_WAIT
  | K_FOREVER
  deriving DecidableEq, Repr

/-- Modelled from the spec: `k_msgq_put(&kscan_msgq, &data, timeout)` of the
kernel (not in the source file), on a bounded FIFO of capacity `max_msgs`.
With room left the message is appended and 0 is returned. On a full queue the
queue is left as it is: with `K_NO_WAIT` the call returns at once with
`-ENOMSG`; with `K_FOREVER` the caller waits, which is the result `none`. -/
def k_msgq_put (max_msgs : Nat) (q : List lv_indev_data_t) (data : lv_indev_data_t)
    (timeout : k_timeout_t) : Option (Int × List lv_indev_data_t) :=
  if q.length < max_msgs then some (0, q ++ [data])
  else
    match timeout with
    | k_timeout_t.K_NO_WAIT => some (-ENOMSG, q)
    | k_timeout_t.K_FOREVER => none

/-- The function `lvgl_pointer_kscan_callback`; `row` and `col` are its
`uint32_t` arguments. The result is `none` when the caller is left waiting,
otherwise the messages given to `LOG_ERR` and the new static state. -/
def lvgl_pointer_kscan_callback (cfg : Kconfig) (s : kscan_state) (row col : Nat)
    (pressed : Bool) : Option (List String × kscan_state) :=
  let data : lv_indev_data_t :=
    { point := { x := (col : Int), y := (row : Int) },
      state := if pressed then lv_indev_state_t.LV_INDEV_STATE_PR
               else lv_indev_state_t.LV_INDEV_STATE_REL }
  match k_msgq_put cfg.CONFIG_LV_Z_POINTER_KSCAN_MSGQ_COUNT s.kscan_msgq data
      k_timeout_t.K_NO_WAIT with
  | none => none
  | some (ret, q) =>
    if ret ≠ 0 then
      some (["Could put input data into queue"], { s with kscan_msgq := q })
    else
      some ([], { s with kscan_msgq := q })

/-- Successive polls of the graphics runtime: one call of
`lvgl_pointer_kscan_read` per element of `caps` (the capabilities the display
reports during that call), with no callback in between. The result is the list
of emitted samples and the final static state. -/
def poll_each (cfg : Kconfig) : List display_capabilities → kscan_state →
    List lv_indev_data_t × kscan_state
  | [], s => ([], s)
  | cap :: caps, s =>
    let r := lvgl_pointer_kscan_read cfg cap s
    let rest := poll_each cfg caps r.2
    (r.1 :: rest.1, rest.2)

/-! ## Logging callback: `lvgl_log` -/

/-- The four macros of the logging framework that `lvgl_log` invokes. -/
inductive log_macro_call where
  | LOG_ERR
  | LOG_WRN
  | LOG_INF
  | LOG_DBG
  deriving DecidableEq, Repr

/-- The C function `strlen` on a string literal. -/
def strlen (literal : String) : Nat := literal.length

/-- The function `log_strdup` of the logging framework: a copy of its
argument. -/
def log_strdup (text : List Char) : List Char := text

/-- The function `lvgl_log`. The buffer is the list of its characters (without
the terminator) and `buf + k` is `buf.drop k`. The result is the logging macro
invoked together with the text it receives, or `none` when no `case` of the
`switch` on `buf[1]` matches. -/
def lvgl_log (buf : List Char) : Option (log_macro_call × List Char) :=
  match buf.get? 1 with
  | none => none
  | some c =>
    if c = 'E' then
      some (log_macro_call.LOG_ERR, log_strdup (buf.drop (strlen ("[Error] "))))
    else if c = 'W' then
      some (log_macro_call.LOG_WRN, log_strdup (buf.drop (strlen ("Warn] "))))
    else if c = 'I' then
      some (log_macro_call.LOG_INF, log_strdup (buf.drop (strlen ("[Info] "))))
    else if c = 'T' then
      some (log_macro_call.LOG_DBG, log_strdup (buf.drop (strlen ("[Trace] "))))
    else none

/-! ## Initialisation: `lvgl_pointer_kscan_init` and `lvgl_init` -/

/-- Build-time options that select code in `lvgl_init`. -/
structure Kconfig_init where
  CONFIG_LV_Z_BUFFER_ALLOC_STATIC : Bool
  CONFIG_LV_LOG_LEVEL : Nat
  CONFIG_LV_Z_USE_FILESYSTEM : Bool
  CONFIG_LV_Z_POINTER_KSCAN : Bool
  deriving DecidableEq, Repr

/-- Calls to collaborators made by `lvgl_init` and `lvgl_pointer_kscan_init`,
in the order of the source. The two calls of `device_get_binding` are told
apart by the device name they look up. Allocation requests and
`lv_disp_draw_buf_init` are recorded in `alloc_state`. -/
inductive collaborator_call where
  | device_get_binding_display
  | lv_log_register_print_cb
  | lv_init
  | lvgl_fs_init
  | lv_disp_drv_init
  | set_lvgl_rendering_cb
  | lv_disp_drv_register
  | device_get_binding_kscan
  | kscan_config
  | lv_indev_drv_init
  | lv_indev_drv_register
  | kscan_enable_callback
  deriving DecidableEq, Repr

/-- Outcomes of the collaborators during one run of `lvgl_init`, all arbitrary:
the device pointers returned by the two lookups (`0` is `NULL`), the driver
contents left by `lv_disp_drv_init`, the capabilities the display reports, the
outcome of each allocation request, the return values of
`set_lvgl_rendering_cb` and `kscan_config`, and the pointers returned by the
two registrations. -/
structure init_env where
  display_dev : Nat
  lv_disp_drv_init : lv_disp_drv_t
  cap : display_capabilities
  oracle : Nat → Bool
  set_lvgl_rendering_cb : Int
  lv_disp_drv_register : Nat
  kscan_dev : Nat
  kscan_config : Int
  lv_indev_drv_register : Nat

/-- The function `lvgl_allocate_rendering_buffers` as `lvgl_init` sees it: the
static variant under `CONFIG_LV_Z_BUFFER_ALLOC_STATIC`, the dynamic one
otherwise. -/
def lvgl_allocate_rendering_buffers (icfg : Kconfig_init) (cfg : Kconfig)
    (cap : display_capabilities) (oracle : Nat → Bool) (s : alloc_state) : Int × alloc_state :=
  if icfg.CONFIG_LV_Z_BUFFER_ALLOC_STATIC then
    BufferAllocStatic.lvgl_allocate_rendering_buffers cfg cap s
  else
    BufferAllocDynamic.lvgl_allocate_rendering_buffers cfg cap oracle s

/-- The function `lvgl_pointer_kscan_init`: its return value and the
collaborator calls it makes. -/
def lvgl_pointer_kscan_init (env : init_env) : Int × List collaborator_call :=
  let calls := [collaborator_call.device_get_binding_kscan]
  if env.kscan_dev = 0 then
    (-ENODEV, calls)
  else
    let calls := calls ++ [collaborator_call.kscan_config]
    if env.kscan_config < 0 then
      (-ENODEV, calls)
    else
      let calls := calls ++ [collaborator_call.lv_indev_drv_init]
      let calls := calls ++ [collaborator_call.lv_indev_drv_register]
      if env.lv_indev_drv_register = 0 then
        (-EPERM, calls)
      else
        let calls := calls ++ [collaborator_call.kscan_enable_callback]
        (0, calls)

/-- The function `lvgl_init`: its return value, the allocator state it leaves
(the static `disp_drv`, the heap, the descriptor) and the collaborator calls it
makes, oldest first. -/
def lvgl_init (cfg : Kconfig) (icfg : Kconfig_init) (env : init_env) (s : alloc_state) :
    Int × alloc_state × List collaborator_call :=
  let calls := [collaborator_call.device_get_binding_display]
  if env.display_dev = 0 then
    (-ENODEV, s, calls)
  else
    let calls :=
      if icfg.CONFIG_LV_LOG_LEVEL ≠ 0 then calls ++ [collaborator_call.lv_log_register_print_cb]
      else calls
    let calls := calls ++ [collaborator_call.lv_init]
    let calls :=
      if icfg.CONFIG_LV_Z_USE_FILESYSTEM then calls ++ [collaborator_call.lvgl_fs_init]
      else calls
    let calls := calls ++ [collaborator_call.lv_disp_drv_init]
    let s : alloc_state := { s with disp_drv := env.lv_disp_drv_init }
    let (err, s) := lvgl_allocate_rendering_buffers icfg cfg env.cap env.oracle s
    if err ≠ 0 then
      (err, s, calls)
    else
      let calls := calls ++ [collaborator_call.set_lvgl_rendering_cb]
      if env.set_lvgl_rendering_cb ≠ 0 then
        (-ENOTSUP, s, calls)
      else
        let calls := calls ++ [collaborator_call.lv_disp_drv_register]
        if env.lv_disp_drv_register = 0 then
          (-EPERM, s, calls)
        else
          let calls :=
            if icfg.CONFIG_LV_Z_POINTER_KSCAN then calls ++ (lvgl_pointer_kscan_init env).2
            else calls
          (0, s, calls)

/-- The step of the initialisation sequence of the specification at which a
run fails: 1 for the display lookup, 3 for the buffer allocation, 4 for the
rendering-callback binding, 5 for the display-driver registration; `none`
when steps 1 to 5 all succeed. `alloc_err` is what the buffer allocation
returns in that run. -/
def spec_failing_step (env : init_env) (alloc_err : Int) : Option Nat :=
  if env.display_dev = 0 then some 1
  else if alloc_err ≠ 0 then some 3
  else if env.set_lvgl_rendering_cb ≠ 0 then some 4
  else if env.lv_disp_drv_register = 0 then some 5
  else none

/-- The collaborator calls of `lvgl_init` from the display lookup up to and
including `lv_disp_drv_init`, that is everything before the buffer allocation. -/
def calls_before_allocation (icfg : Kconfig_init) : List collaborator_call :=
  [collaborator_call.device_get_binding_display]
    ++ (if icfg.CONFIG_LV_LOG_LEVEL ≠ 0 then [collaborator_call.lv_log_register_print_cb] else [])
    ++ [collaborator_call.lv_init]
    ++ (if icfg.CONFIG_LV_Z_USE_FILESYSTEM then [collaborator_call.lvgl_fs_init] else [])
    ++ [collaborator_call.lv_disp_drv_init]

/-- The collaborator calls that belong to each step of the initialisation
sequence of the specification: 1 display lookup, 2 graphics runtime, 3 buffer
allocation (its requests and the descriptor are recorded in `alloc_state`; the
driver is reset just before), 4 rendering-callback binding, 5 display-driver
registration, 6 pointer input. -/
def spec_step_calls (step : Nat) : List collaborator_call :=
  match step with
  | 1 => [collaborator_call.device_get_binding_display]
  | 2 => [collaborator_call.lv_log_register_print_cb, collaborator_call.lv_init,
          collaborator_call.lvgl_fs_init]
  | 3 => [collaborator_call.lv_disp_drv_init]
  | 4 => [collaborator_call.set_lvgl_rendering_cb]
  | 5 => [collaborator_call.lv_disp_drv_register]
  | 6 => [collaborator_call.device_get_binding_kscan, collaborator_call.kscan_config,
          collaborator_call.lv_indev_drv_init, collaborator_call.lv_indev_drv_register,
          collaborator_call.kscan_enable_callback]
  | _ => []

/-! ## Concrete inputs for the evaluations of the initialisation -/

/-- A 640 by 480 display in RGB565, normal orientation. -/
def cap_640x480_rgb565 : display_capabilities :=
  { x_resolution := 640, y_resolution := 480,
    current_pixel_format := display_pixel_format.PIXEL_FORMAT_RGB_565,
    current_orientation := display_orientation.DISPLAY_ORIENTATION_NORMAL,
    x_resolution_lt := by decide, y_resolution_lt := by decide }

/-- A build with dynamic buffers, logging, no file system, pointer input. -/
def init_config_dynamic : Kconfig_init :=
  { CONFIG_LV_Z_BUFFER_ALLOC_STATIC := false, CONFIG_LV_LOG_LEVEL := 2,
    CONFIG_LV_Z_USE_FILESYSTEM := false, CONFIG_LV_Z_POINTER_KSCAN := true }

/-- A build with static buffers, logging, no file system, pointer input. -/
def init_config_static : Kconfig_init :=
  { CONFIG_LV_Z_BUFFER_ALLOC_STATIC := true, CONFIG_LV_LOG_LEVEL := 2,
    CONFIG_LV_Z_USE_FILESYSTEM := false, CONFIG_LV_Z_POINTER_KSCAN := true }

/-- A run in which every collaborator succeeds, on the 320 by 240 display. -/
def env_all_succeed : init_env :=
  { display_dev := 1000, lv_disp_drv_init := { hor_res := 0, ver_res := 0, draw_buf := 0 },
    cap := cap_320x240_rgb565, oracle := fun _ => true, set_lvgl_rendering_cb := 0,
    lv_disp_drv_register := 1001, kscan_dev := 1002, kscan_config := 0,
    lv_indev_drv_register := 1003 }

/-- A run in which the display device is not found. -/
def env_display_missing : init_env := { env_all_succeed with display_dev := 0 }

/-- A run on a 640 by 480 display, wider than the ceiling of 480 of
`config_full_frame`. -/
def env_display_too_wide : init_env := { env_all_succeed with cap := cap_640x480_rgb565 }

/-- A run on a display whose pixel format has no rendering callback:
`set_lvgl_rendering_cb` returns `-ENOTSUP`. -/
def env_no_rendering_cb : init_env :=
  { env_all_succeed with cap := cap_320x240_other, set_lvgl_rendering_cb := -ENOTSUP }

/-- A run in which the display-driver registration returns `NULL`. -/
def env_registration_fails : init_env := { env_all_succeed with lv_disp_drv_register := 0 }

/-- A run in which the keyboard-scan device is not found. -/
def env_kscan_missing : init_env := { env_all_succeed with kscan_dev := 0 }

/-! ## Theorems: pointer input -/

/-- Claim C1: when a raw sample is dequeued, `lvgl_pointer_kscan_read` emits, and
stores as the new last sample, rotate(invertY(invertX(swap(raw)))) for every
orientation, resolution and flag combination; the message is removed from the
queue and the state field is the one of the raw sample. -/
theorem kscan_read_is_transform_chain (cfg : Kconfig) (cap : display_capabilities)
    (raw : lv_indev_data_t) (q : List lv_indev_data_t) (last : lv_indev_data_t) :
    lvgl_pointer_kscan_read cfg cap { kscan_msgq := raw :: q, prev := last }
        = (spec_transform cfg cap raw, { kscan_msgq := q, prev := spec_transform cfg cap raw })
      ∧ (spec_transform cfg cap raw).state = raw.state := by
  obtain ⟨xr, yr, fmt, o, hx, hy⟩ := cap
  obtain ⟨⟨x, y⟩, st⟩ := raw
  cases o <;>
    cases hs : cfg.CONFIG_LV_Z_POINTER_KSCAN_SWAP_XY <;>
    cases hix : cfg.CONFIG_LV_Z_POINTER_KSCAN_INVERT_X <;>
    cases hiy : cfg.CONFIG_LV_Z_POINTER_KSCAN_INVERT_Y <;>
    simp [lvgl_pointer_kscan_read, k_msgq_get, spec_transform, spec_rotate, spec_invert_x,
      spec_invert_y, spec_swap, spec_limit_x, spec_limit_y, hs, hix, hiy]

/-! ## Lemmas: fixed-width conversions and the pixel count -/

theorem to_uint16_lt (z : Int) : to_uint16 z < 65536 := by
  unfold to_uint16
  omega

theorem to_uint16_eq_self (n : Nat) (h : n < 65536) : to_uint16 (n : Int) = n := by
  unfold to_uint16
  omega

theorem to_uint32_eq_self (n : Nat) (h : n < 4294967296) : to_uint32 (n : Int) = n := by
  unfold to_uint32
  omega

theorem buf_nbr_pixels_lt (cfg : Kconfig) (disp_drv : lv_disp_drv_t) :
    BufferAllocDynamic.buf_nbr_pixels cfg disp_drv < 65536 := by
  unfold BufferAllocDynamic.buf_nbr_pixels
  simp only
  split_ifs
  · exact to_uint16_lt _
  · exact to_uint16_lt _

theorem hor_res_le_buf_nbr_pixels (cfg : Kconfig) (disp_drv : lv_disp_drv_t)
    (h : disp_drv.hor_res < 65536) :
    disp_drv.hor_res ≤ (BufferAllocDynamic.buf_nbr_pixels cfg disp_drv : Int) := by
  unfold BufferAllocDynamic.buf_nbr_pixels
  simp only
  split_ifs with hlt
  · have h0 : 0 ≤ disp_drv.hor_res := by omega
    unfold to_uint16
    omega
  · omega

theorem buf_nbr_pixels_congr (cfg : Kconfig) (d e : lv_disp_drv_t)
    (hh : d.hor_res = e.hor_res) (hv : d.ver_res = e.ver_res) :
    BufferAllocDynamic.buf_nbr_pixels cfg d = BufferAllocDynamic.buf_nbr_pixels cfg e := by
  unfold BufferAllocDynamic.buf_nbr_pixels
  rw [hh, hv]

theorem buf_size_mono_eq (n : Nat) (h : n < 65536) :
    to_uint32 ((to_uint32 (Int.tdiv (n : Int) 8) : Int)
        + (if Int.tmod (n : Int) 8 = 0 then 0 else 1))
      = n / 8 + (if n % 8 = 0 then 0 else 1) := by
  have h1 : Int.tdiv (n : Int) 8 = ((n / 8 : Nat) : Int) := by
    rw [Int.tdiv_eq_ediv (by omega) (by omega)]
    omega
  have h2 : Int.tmod (n : Int) 8 = ((n % 8 : Nat) : Int) := by
    rw [Int.tmod_eq_emod (by omega) (by omega)]
    omega
  rw [h1, h2]
  unfold to_uint32
  split_ifs <;> omega

theorem ceil_div_eight (n : Nat) :
    n / 8 + (if n % 8 = 0 then 0 else 1) = ⌈(n : ℚ) / 8⌉₊ := by
  have hm : n ≤ (n / 8 + (if n % 8 = 0 then 0 else 1)) * 8 ∧
      (n / 8 + (if n % 8 = 0 then 0 else 1)) * 8 < n + 8 := by
    split_ifs <;> omega
  generalize n / 8 + (if n % 8 = 0 then 0 else 1) = m at hm
  obtain ⟨hlo, hhi⟩ := hm
  apply le_antisymm
  · have hc := Nat.le_ceil ((n : ℚ) / 8)
    have hq : ((m : ℚ)) * 8 < (n : ℚ) + 8 := by exact_mod_cast hhi
    have h3 : (m : ℚ) < (⌈(n : ℚ) / 8⌉₊ : ℚ) + 1 := by
      have : (m : ℚ) < (n : ℚ) / 8 + 1 := by
        rw [← sub_lt_iff_lt_add, lt_div_iff₀ (by norm_num)]
        linarith
      linarith
    have h4 : m < ⌈(n : ℚ) / 8⌉₊ + 1 := by exact_mod_cast h3
    omega
  · rw [Nat.ceil_le, div_le_iff₀ (by norm_num)]
    exact_mod_cast hlo

/-! ## Lemmas: the dynamic allocator -/

theorem alloc_dynamic_resolution (cfg : Kconfig) (cap : display_capabilities)
    (oracle : Nat → Bool) (s : alloc_state) :
    (BufferAllocDynamic.lvgl_allocate_rendering_buffers cfg cap oracle s).2.disp_drv.hor_res
        = (cap.x_resolution : Int) ∧
      (BufferAllocDynamic.lvgl_allocate_rendering_buffers cfg cap oracle s).2.disp_drv.ver_res
        = (cap.y_resolution : Int) := by
  unfold BufferAllocDynamic.lvgl_allocate_rendering_buffers LV_MEM_CUSTOM_ALLOC LV_MEM_CUSTOM_FREE
  cases hsz : BufferAllocDynamic.buf_size cap.current_pixel_format
      (BufferAllocDynamic.buf_nbr_pixels cfg
        { s.disp_drv with hor_res := (cap.x_resolution : Int), ver_res := (cap.y_resolution : Int) })
  · simp [hsz]
  · cases h0 : oracle s.heap.requests.length <;>
    cases h1 : oracle (s.heap.requests.length + 1) <;>
    cases h2 : oracle (s.heap.requests.length + 1 + 1) <;>
    cases hd : cfg.CONFIG_LV_Z_DOUBLE_VDB <;>
    simp [hsz, h0, h1, h2, hd]

theorem alloc_dynamic_requests (cfg : Kconfig) (cap : display_capabilities)
    (oracle : Nat → Bool) (s : alloc_state) (sz : Nat)
    (hsz : BufferAllocDynamic.buf_size cap.current_pixel_format
      (BufferAllocDynamic.buf_nbr_pixels cfg
        { s.disp_drv with hor_res := (cap.x_resolution : Int), ver_res := (cap.y_resolution : Int) })
      = some sz) :
    (∃ rest, (BufferAllocDynamic.lvgl_allocate_rendering_buffers cfg cap oracle s).2.heap.requests
        = s.heap.requests ++ sz :: rest) ∧
    (cfg.CONFIG_LV_Z_DOUBLE_VDB = true → oracle s.heap.requests.length = true →
      ∃ rest, (BufferAllocDynamic.lvgl_allocate_rendering_buffers cfg cap oracle s).2.heap.requests
        = s.heap.requests ++ sz :: sz :: rest) ∧
    ((BufferAllocDynamic.lvgl_allocate_rendering_buffers cfg cap oracle s).1 = 0 →
      ∃ c, (BufferAllocDynamic.lvgl_allocate_rendering_buffers cfg cap oracle s).2.draw_buf_init
          = s.draw_buf_init ++ [c] ∧
        c.size_in_px_cnt = BufferAllocDynamic.buf_nbr_pixels cfg
          { s.disp_drv with hor_res := (cap.x_resolution : Int),
                            ver_res := (cap.y_resolution : Int) }) := by
  unfold BufferAllocDynamic.lvgl_allocate_rendering_buffers LV_MEM_CUSTOM_ALLOC LV_MEM_CUSTOM_FREE
  cases h0 : oracle s.heap.requests.length <;>
    cases h1 : oracle (s.heap.requests.length + 1) <;>
    cases h2 : oracle (s.heap.requests.length + 1 + 1) <;>
    cases hd : cfg.CONFIG_LV_Z_DOUBLE_VDB <;>
    simp [hsz, h0, h1, h2, hd, ENOMEM, ENOTSUP]

/-! ## Theorems: rendering buffers, dynamic allocation -/

theorem buf_nbr_pixels_result (cfg : Kconfig) (cap : display_capabilities)
    (oracle : Nat → Bool) (s : alloc_state) :
    BufferAllocDynamic.buf_nbr_pixels cfg
        (BufferAllocDynamic.lvgl_allocate_rendering_buffers cfg cap oracle s).2.disp_drv
      = BufferAllocDynamic.buf_nbr_pixels cfg
          { s.disp_drv with hor_res := (cap.x_resolution : Int),
                            ver_res := (cap.y_resolution : Int) } :=
  buf_nbr_pixels_congr cfg _ _ (alloc_dynamic_resolution cfg cap oracle s).1
    (alloc_dynamic_resolution cfg cap oracle s).2

theorem buf_size_color (fmt : display_pixel_format) (bpp n : Nat)
    (hfmt : spec_bytes_per_pixel fmt = some bpp) (hn : n < 65536) :
    BufferAllocDynamic.buf_size fmt n = some (bpp * n) ∧ bpp * n < 4294967296 := by
  cases fmt <;> simp [spec_bytes_per_pixel] at hfmt <;> subst hfmt <;>
    simp only [BufferAllocDynamic.buf_size, to_uint32] <;>
    refine ⟨?_, by omega⟩ <;> congr 1 <;> omega

theorem buf_size_mono (fmt : display_pixel_format) (n : Nat)
    (hfmt : fmt = display_pixel_format.PIXEL_FORMAT_MONO01 ∨
      fmt = display_pixel_format.PIXEL_FORMAT_MONO10) (hn : n < 65536) :
    BufferAllocDynamic.buf_size fmt n = some ⌈(n : ℚ) / 8⌉₊ := by
  rcases hfmt with h | h <;> subst h <;>
    simp only [BufferAllocDynamic.buf_size] <;>
    rw [buf_size_mono_eq n hn, ceil_div_eight]

/-- Claim C2, evaluated at a failing input: with a full-frame buffer
(`CONFIG_LV_Z_VDB_SIZE=100`) on a 320 by 240 RGB565 display and every
allocation succeeding, `lvgl_allocate_rendering_buffers` (dynamic) returns 0
and hands the pixel count 11264 to `lv_disp_draw_buf_init`, whereas
max(floor(100 * 320 * 240 / 100), 320) is 76800: the count was cut to 16 bits
(76800 - 65536 = 11264). -/
theorem alloc_dynamic_pixel_count_truncated :
    BufferAllocDynamic.lvgl_allocate_rendering_buffers config_full_frame cap_320x240_rgb565
        (fun _ => true) fresh_state
      = (0, { disp_drv := { hor_res := 320, ver_res := 240, draw_buf := 3 },
              heap := { live := [3, 2, 1], brk := 3, requests := [22528, 22528, 28],
                        released := [] },
              draw_buf_init :=
                [{ draw_buf := 3, buf1 := 1, buf2 := 2, size_in_px_cnt := 11264 }] })
    ∧ max ((100 * 320 * 240 : Int) / 100) 320 = 76800 := by
  constructor
  · decide
  · decide

/-- Claim C3: in dynamic mode, for the formats ARGB8888, RGB888 and RGB565
(4, 3 and 2 bytes per pixel) the size requested for buffer A, and for buffer B
under double buffering once A is obtained, is exactly bytes-per-pixel times
the pixel count computed for the resolution written to the driver; on success
that pixel count is the one handed to the descriptor; and for every 16-bit
pixel count the `switch` yields bytes-per-pixel times the count, which is below
`2 ^ 32`, so the 32-bit size does not wrap. -/
theorem alloc_dynamic_color_byte_size (cfg : Kconfig) (cap : display_capabilities)
    (oracle : Nat → Bool) (s : alloc_state) (bpp : Nat)
    (hfmt : spec_bytes_per_pixel cap.current_pixel_format = some bpp) :
    (∃ rest, (BufferAllocDynamic.lvgl_allocate_rendering_buffers cfg cap oracle s).2.heap.requests
        = s.heap.requests ++
          (bpp * BufferAllocDynamic.buf_nbr_pixels cfg
            (BufferAllocDynamic.lvgl_allocate_rendering_buffers cfg cap oracle s).2.disp_drv)
          :: rest) ∧
    (cfg.CONFIG_LV_Z_DOUBLE_VDB = true → oracle s.heap.requests.length = true →
      ∃ rest, (BufferAllocDynamic.lvgl_allocate_rendering_buffers cfg cap oracle s).2.heap.requests
        = s.heap.requests ++
          (bpp * BufferAllocDynamic.buf_nbr_pixels cfg
            (BufferAllocDynamic.lvgl_allocate_rendering_buffers cfg cap oracle s).2.disp_drv)
          :: (bpp * BufferAllocDynamic.buf_nbr_pixels cfg
            (BufferAllocDynamic.lvgl_allocate_rendering_buffers cfg cap oracle s).2.disp_drv)
          :: rest) ∧
    ((BufferAllocDynamic.lvgl_allocate_rendering_buffers cfg cap oracle s).1 = 0 →
      ∃ c, (BufferAllocDynamic.lvgl_allocate_rendering_buffers cfg cap oracle s).2.draw_buf_init
          = s.draw_buf_init ++ [c] ∧
        c.size_in_px_cnt = BufferAllocDynamic.buf_nbr_pixels cfg
          (BufferAllocDynamic.lvgl_allocate_rendering_buffers cfg cap oracle s).2.disp_drv) ∧
    (∀ n, n < 65536 →
      BufferAllocDynamic.buf_size cap.current_pixel_format n = some (bpp * n) ∧
        bpp * n < 4294967296) := by
  rw [buf_nbr_pixels_result]
  have hsz := (buf_size_color cap.current_pixel_format bpp _ hfmt
    (buf_nbr_pixels_lt cfg
      { s.disp_drv with hor_res := (cap.x_resolution : Int),
                        ver_res := (cap.y_resolution : Int) })).1
  obtain ⟨h1, h2, h3⟩ := alloc_dynamic_requests cfg cap oracle s _ hsz
  exact ⟨h1, h2, h3, fun n hn => buf_size_color _ bpp n hfmt hn⟩

/-- Instance of claim C3: RGB565 at 320 by 240 with a full-frame buffer. -/
theorem alloc_dynamic_color_byte_size_witness :
    spec_bytes_per_pixel cap_320x240_rgb565.current_pixel_format = some 2 ∧
    ∃ rest, (BufferAllocDynamic.lvgl_allocate_rendering_buffers config_full_frame
        cap_320x240_rgb565 (fun _ => true) fresh_state).2.heap.requests
      = fresh_state.heap.requests ++ (2 * 11264) :: rest :=
  ⟨by decide,
    (alloc_dynamic_color_byte_size config_full_frame cap_320x240_rgb565 (fun _ => true)
      fresh_state 2 (by decide)).1⟩

/-- Claim C4: in dynamic mode, for the formats MONO01 and MONO10 the size
requested for buffer A, and for buffer B under double buffering once A is
obtained, is ceil(pixel_count / 8) for the computed pixel count; the `switch`
yields ceil(n / 8) for every 16-bit pixel count n, and 2 bytes for 15 pixels
and for 16 pixels. -/
theorem alloc_dynamic_mono_byte_size (cfg : Kconfig) (cap : display_capabilities)
    (oracle : Nat → Bool) (s : alloc_state)
    (hfmt : cap.current_pixel_format = display_pixel_format.PIXEL_FORMAT_MONO01 ∨
      cap.current_pixel_format = display_pixel_format.PIXEL_FORMAT_MONO10) :
    (∃ rest, (BufferAllocDynamic.lvgl_allocate_rendering_buffers cfg cap oracle s).2.heap.requests
        = s.heap.requests ++
          ⌈((BufferAllocDynamic.buf_nbr_pixels cfg
            (BufferAllocDynamic.lvgl_allocate_rendering_buffers cfg cap oracle s).2.disp_drv
              : Nat) : ℚ) / 8⌉₊
          :: rest) ∧
    (cfg.CONFIG_LV_Z_DOUBLE_VDB = true → oracle s.heap.requests.length = true →
      ∃ rest, (BufferAllocDynamic.lvgl_allocate_rendering_buffers cfg cap oracle s).2.heap.requests
        = s.heap.requests ++
          ⌈((BufferAllocDynamic.buf_nbr_pixels cfg
            (BufferAllocDynamic.lvgl_allocate_rendering_buffers cfg cap oracle s).2.disp_drv
              : Nat) : ℚ) / 8⌉₊
          :: ⌈((BufferAllocDynamic.buf_nbr_pixels cfg
            (BufferAllocDynamic.lvgl_allocate_rendering_buffers cfg cap oracle s).2.disp_drv
              : Nat) : ℚ) / 8⌉₊
          :: rest) ∧
    (∀ n, n < 65536 →
      BufferAllocDynamic.buf_size cap.current_pixel_format n = some ⌈(n : ℚ) / 8⌉₊) ∧
    BufferAllocDynamic.buf_size cap.current_pixel_format 15 = some 2 ∧
    BufferAllocDynamic.buf_size cap.current_pixel_format 16 = some 2 := by
  rw [buf_nbr_pixels_result]
  have hsz := buf_size_mono cap.current_pixel_format _ hfmt
    (buf_nbr_pixels_lt cfg
      { s.disp_drv with hor_res := (cap.x_resolution : Int),
                        ver_res := (cap.y_resolution : Int) })
  obtain ⟨h1, h2, _⟩ := alloc_dynamic_requests cfg cap oracle s _ hsz
  refine ⟨h1, h2, fun n hn => buf_size_mono _ n hfmt hn, ?_, ?_⟩ <;>
    rcases hfmt with h | h <;> rw [h] <;> decide

/-- Instance of claim C4: the MONO01 display. -/
theorem alloc_dynamic_mono_byte_size_witness :
    (cap_128x64_mono.current_pixel_format = display_pixel_format.PIXEL_FORMAT_MONO01 ∨
      cap_128x64_mono.current_pixel_format = display_pixel_format.PIXEL_FORMAT_MONO10) ∧
    BufferAllocDynamic.buf_size cap_128x64_mono.current_pixel_format 15 = some 2 ∧
    BufferAllocDynamic.buf_size cap_128x64_mono.current_pixel_format 16 = some 2 :=
  ⟨Or.inl rfl,
    (alloc_dynamic_mono_byte_size config_mono_small cap_128x64_mono (fun _ => true) fresh_state
      (Or.inl rfl)).2.2.2⟩

/-- Claim C5: in dynamic mode, for every `CONFIG_LV_Z_VDB_SIZE >= 0`, every
horizontal resolution `hor_res > 0` written to the driver and every vertical
resolution, the computed pixel count is at least `hor_res`, and when the call
succeeds the pixel count handed to `lv_disp_draw_buf_init` is at least
`hor_res`. -/
theorem alloc_dynamic_pixel_count_ge_hor_res (cfg : Kconfig) (cap : display_capabilities)
    (oracle : Nat → Bool) (s : alloc_state)
    (_hvdb : 0 ≤ cfg.CONFIG_LV_Z_VDB_SIZE)
    (hhor : 0 <
      (BufferAllocDynamic.lvgl_allocate_rendering_buffers cfg cap oracle s).2.disp_drv.hor_res) :
    (BufferAllocDynamic.lvgl_allocate_rendering_buffers cfg cap oracle s).2.disp_drv.hor_res
      ≤ (BufferAllocDynamic.buf_nbr_pixels cfg
          (BufferAllocDynamic.lvgl_allocate_rendering_buffers cfg cap oracle s).2.disp_drv : Int) ∧
    ((BufferAllocDynamic.lvgl_allocate_rendering_buffers cfg cap oracle s).1 = 0 →
      ∃ c, (BufferAllocDynamic.lvgl_allocate_rendering_buffers cfg cap oracle s).2.draw_buf_init
          = s.draw_buf_init ++ [c] ∧
        (BufferAllocDynamic.lvgl_allocate_rendering_buffers cfg cap oracle s).2.disp_drv.hor_res
          ≤ (c.size_in_px_cnt : Int)) := by
  have hres := (alloc_dynamic_resolution cfg cap oracle s).1
  have hle := hor_res_le_buf_nbr_pixels cfg
    (BufferAllocDynamic.lvgl_allocate_rendering_buffers cfg cap oracle s).2.disp_drv
    (by rw [hres]; have := cap.x_resolution_lt; omega)
  refine ⟨hle, fun h0 => ?_⟩
  cases hsz : BufferAllocDynamic.buf_size cap.current_pixel_format
      (BufferAllocDynamic.buf_nbr_pixels cfg
        { s.disp_drv with hor_res := (cap.x_resolution : Int),
                          ver_res := (cap.y_resolution : Int) }) with
  | none =>
    exfalso
    revert h0
    unfold BufferAllocDynamic.lvgl_allocate_rendering_buffers
    simp [hsz, ENOTSUP]
  | some sz =>
    obtain ⟨c, hc, hcn⟩ := (alloc_dynamic_requests cfg cap oracle s sz hsz).2.2 h0
    refine ⟨c, hc, ?_⟩
    rw [hcn, ← buf_nbr_pixels_result cfg cap oracle s]
    exact hle

/-- Instance of claim C5: one percent of 128 by 64 is raised to one row of 128 pixels. -/
theorem alloc_dynamic_pixel_count_ge_hor_res_witness :
    0 ≤ config_mono_small.CONFIG_LV_Z_VDB_SIZE ∧
    0 < (BufferAllocDynamic.lvgl_allocate_rendering_buffers config_mono_small cap_128x64_mono
          (fun _ => true) fresh_state).2.disp_drv.hor_res ∧
    (128 : Int) ≤ (BufferAllocDynamic.buf_nbr_pixels config_mono_small
          (BufferAllocDynamic.lvgl_allocate_rendering_buffers config_mono_small cap_128x64_mono
            (fun _ => true) fresh_state).2.disp_drv : Int) :=
  ⟨by decide, by decide,
    (alloc_dynamic_pixel_count_ge_hor_res config_mono_small cap_128x64_mono (fun _ => true)
      fresh_state (by decide) (by decide)).1⟩

/-- Claim C7: in dynamic mode, whenever `lvgl_allocate_rendering_buffers`
returns an error, the live blocks are those of before the call, every address
handed out during the call has been released (in allocation order), no
descriptor has been initialised, the error is `-ENOMEM` or `-ENOTSUP`, and it
is `-ENOMEM` when a request of the call failed. In particular, for a supported
format: under double buffering a failed request for buffer B releases buffer
A; a failed request for the descriptor releases buffers A and B under double
buffering, and buffer A under single buffering. -/
theorem alloc_dynamic_error_releases_all (cfg : Kconfig) (cap : display_capabilities)
    (oracle : Nat → Bool) (s : alloc_state)
    (herr : (BufferAllocDynamic.lvgl_allocate_rendering_buffers cfg cap oracle s).1 ≠ 0) :
    (BufferAllocDynamic.lvgl_allocate_rendering_buffers cfg cap oracle s).2.heap.live = s.heap.live ∧
    (BufferAllocDynamic.lvgl_allocate_rendering_buffers cfg cap oracle s).2.heap.released
      = s.heap.released ++ List.range' (s.heap.brk + 1)
          ((BufferAllocDynamic.lvgl_allocate_rendering_buffers cfg cap oracle s).2.heap.brk
            - s.heap.brk) ∧
    (BufferAllocDynamic.lvgl_allocate_rendering_buffers cfg cap oracle s).2.draw_buf_init
      = s.draw_buf_init ∧
    ((BufferAllocDynamic.lvgl_allocate_rendering_buffers cfg cap oracle s).1 = -ENOMEM ∨
      (BufferAllocDynamic.lvgl_allocate_rendering_buffers cfg cap oracle s).1 = -ENOTSUP) ∧
    ((∃ i, s.heap.requests.length ≤ i ∧
        i < (BufferAllocDynamic.lvgl_allocate_rendering_buffers cfg cap oracle s).2.heap.requests.length ∧
        oracle i = false) →
      (BufferAllocDynamic.lvgl_allocate_rendering_buffers cfg cap oracle s).1 = -ENOMEM) ∧
    ((∀ v, cap.current_pixel_format ≠ display_pixel_format.PIXEL_FORMAT_OTHER v) →
      cfg.CONFIG_LV_Z_DOUBLE_VDB = true → oracle s.heap.requests.length = true →
      oracle (s.heap.requests.length + 1) = false →
      (BufferAllocDynamic.lvgl_allocate_rendering_buffers cfg cap oracle s).1 = -ENOMEM ∧
      (BufferAllocDynamic.lvgl_allocate_rendering_buffers cfg cap oracle s).2.heap.released
        = s.heap.released ++ [s.heap.brk + 1]) ∧
    ((∀ v, cap.current_pixel_format ≠ display_pixel_format.PIXEL_FORMAT_OTHER v) →
      cfg.CONFIG_LV_Z_DOUBLE_VDB = true → oracle s.heap.requests.length = true →
      oracle (s.heap.requests.length + 1) = true → oracle (s.heap.requests.length + 2) = false →
      (BufferAllocDynamic.lvgl_allocate_rendering_buffers cfg cap oracle s).1 = -ENOMEM ∧
      (BufferAllocDynamic.lvgl_allocate_rendering_buffers cfg cap oracle s).2.heap.released
        = s.heap.released ++ [s.heap.brk + 1, s.heap.brk + 2]) ∧
    ((∀ v, cap.current_pixel_format ≠ display_pixel_format.PIXEL_FORMAT_OTHER v) →
      cfg.CONFIG_LV_Z_DOUBLE_VDB = false → oracle s.heap.requests.length = true →
      oracle (s.heap.requests.length + 1) = false →
      (BufferAllocDynamic.lvgl_allocate_rendering_buffers cfg cap oracle s).1 = -ENOMEM ∧
      (BufferAllocDynamic.lvgl_allocate_rendering_buffers cfg cap oracle s).2.heap.released
        = s.heap.released ++ [s.heap.brk + 1]) := by
  revert herr
  unfold BufferAllocDynamic.lvgl_allocate_rendering_buffers LV_MEM_CUSTOM_ALLOC LV_MEM_CUSTOM_FREE
  have hbrk : s.heap.brk + 1 + 1 - s.heap.brk = 2 := by omega
  cases hsz : BufferAllocDynamic.buf_size cap.current_pixel_format
      (BufferAllocDynamic.buf_nbr_pixels cfg
        { s.disp_drv with hor_res := (cap.x_resolution : Int), ver_res := (cap.y_resolution : Int) })
  · have hother : ∃ v, cap.current_pixel_format = display_pixel_format.PIXEL_FORMAT_OTHER v := by
      cases hf : cap.current_pixel_format <;>
        simp [hf, BufferAllocDynamic.buf_size] at hsz ⊢
    obtain ⟨v, hv⟩ := hother
    have hno : ¬ ∀ v, cap.current_pixel_format ≠ display_pixel_format.PIXEL_FORMAT_OTHER v :=
      fun h => h v hv
    simp [hsz, ENOTSUP, hno]
    intro i h1 h2
    omega
  · cases h0 : oracle s.heap.requests.length <;>
    cases h1 : oracle (s.heap.requests.length + 1) <;>
    cases h2 : oracle (s.heap.requests.length + 1 + 1) <;>
    cases hd : cfg.CONFIG_LV_Z_DOUBLE_VDB <;>
    simp [hsz, h0, h1, h2, hd, ENOMEM, ENOTSUP, List.range', hbrk]

/-- Instance of claim C7: double buffering, the request for buffer B fails. -/
theorem alloc_dynamic_error_releases_all_witness :
    (BufferAllocDynamic.lvgl_allocate_rendering_buffers config_full_frame cap_320x240_rgb565
        (fun k => decide (k ≠ 1)) fresh_state).1 ≠ 0 ∧
    (BufferAllocDynamic.lvgl_allocate_rendering_buffers config_full_frame cap_320x240_rgb565
        (fun k => decide (k ≠ 1)) fresh_state).2.heap.live = [] ∧
    (BufferAllocDynamic.lvgl_allocate_rendering_buffers config_full_frame cap_320x240_rgb565
        (fun k => decide (k ≠ 1)) fresh_state).1 = -ENOMEM ∧
    (BufferAllocDynamic.lvgl_allocate_rendering_buffers config_full_frame cap_320x240_rgb565
        (fun k => decide (k ≠ 1)) fresh_state).2.heap.released = [1] :=
  ⟨by decide,
    (alloc_dynamic_error_releases_all config_full_frame cap_320x240_rgb565
      (fun k => decide (k ≠ 1)) fresh_state (by decide)).1,
    (alloc_dynamic_error_releases_all config_full_frame cap_320x240_rgb565
      (fun k => decide (k ≠ 1)) fresh_state (by decide)).2.2.2.2.2.1
      (by intro v; simp [cap_320x240_rgb565]) rfl rfl rfl⟩

/-- Claim C8: in dynamic mode, for a pixel format other than ARGB8888, RGB888,
RGB565, MONO01 and MONO10, `lvgl_allocate_rendering_buffers` returns
`-ENOTSUP`, leaves the heap as it was (no request, no release), leaves the
driver pointer `draw_buf` as it was and initialises no descriptor. -/
theorem alloc_dynamic_unsupported_format (cfg : Kconfig) (cap : display_capabilities)
    (oracle : Nat → Bool) (s : alloc_state)
    (h1 : cap.current_pixel_format ≠ display_pixel_format.PIXEL_FORMAT_ARGB_8888)
    (h2 : cap.current_pixel_format ≠ display_pixel_format.PIXEL_FORMAT_RGB_888)
    (h3 : cap.current_pixel_format ≠ display_pixel_format.PIXEL_FORMAT_RGB_565)
    (h4 : cap.current_pixel_format ≠ display_pixel_format.PIXEL_FORMAT_MONO01)
    (h5 : cap.current_pixel_format ≠ display_pixel_format.PIXEL_FORMAT_MONO10) :
    (BufferAllocDynamic.lvgl_allocate_rendering_buffers cfg cap oracle s).1 = -ENOTSUP ∧
    (BufferAllocDynamic.lvgl_allocate_rendering_buffers cfg cap oracle s).2.heap = s.heap ∧
    (BufferAllocDynamic.lvgl_allocate_rendering_buffers cfg cap oracle s).2.disp_drv.draw_buf
      = s.disp_drv.draw_buf ∧
    (BufferAllocDynamic.lvgl_allocate_rendering_buffers cfg cap oracle s).2.draw_buf_init
      = s.draw_buf_init := by
  unfold BufferAllocDynamic.lvgl_allocate_rendering_buffers
  cases hf : cap.current_pixel_format <;> simp_all [BufferAllocDynamic.buf_size]

/-- Instance of claim C8: a display reporting another pixel format. -/
theorem alloc_dynamic_unsupported_format_witness :
    (cap_320x240_other.current_pixel_format ≠ display_pixel_format.PIXEL_FORMAT_ARGB_8888 ∧
      cap_320x240_other.current_pixel_format ≠ display_pixel_format.PIXEL_FORMAT_RGB_888 ∧
      cap_320x240_other.current_pixel_format ≠ display_pixel_format.PIXEL_FORMAT_RGB_565 ∧
      cap_320x240_other.current_pixel_format ≠ display_pixel_format.PIXEL_FORMAT_MONO01 ∧
      cap_320x240_other.current_pixel_format ≠ display_pixel_format.PIXEL_FORMAT_MONO10) ∧
    (BufferAllocDynamic.lvgl_allocate_rendering_buffers config_full_frame cap_320x240_other
        (fun _ => true) fresh_state).1 = -ENOTSUP ∧
    (BufferAllocDynamic.lvgl_allocate_rendering_buffers config_full_frame cap_320x240_other
        (fun _ => true) fresh_state).2.heap = fresh_state.heap ∧
    (BufferAllocDynamic.lvgl_allocate_rendering_buffers config_full_frame cap_320x240_other
        (fun _ => true) fresh_state).2.disp_drv.draw_buf = fresh_state.disp_drv.draw_buf ∧
    (BufferAllocDynamic.lvgl_allocate_rendering_buffers config_full_frame cap_320x240_other
        (fun _ => true) fresh_state).2.draw_buf_init = fresh_state.draw_buf_init :=
  ⟨by decide,
    alloc_dynamic_unsupported_format config_full_frame cap_320x240_other (fun _ => true)
      fresh_state (by decide) (by decide) (by decide) (by decide) (by decide)⟩

/-! ## Theorems: rendering buffers, static allocation -/

/-- Claim C6, evaluated at a failing input: in static mode with a one percent
buffer, one bit per pixel and ceilings 128 by 64, on a 128 by 64 display,
`lvgl_allocate_rendering_buffers` returns 0, writes `hor_res = 128` to the
driver and hands `NBR_PIXELS_IN_BUFFER = 80` to `lv_disp_draw_buf_init`: fewer
pixels than one display row. -/
theorem alloc_static_capacity_below_row :
    BufferAllocStatic.lvgl_allocate_rendering_buffers config_mono_small cap_128x64_mono
        fresh_state
      = (0, { disp_drv := { hor_res := 128, ver_res := 64, draw_buf := BufferAllocStatic.disp_buf },
              heap := fresh_state.heap,
              draw_buf_init :=
                [{ draw_buf := BufferAllocStatic.disp_buf, buf1 := BufferAllocStatic.buf0,
                   buf2 := 0, size_in_px_cnt := 80 }] })
    ∧ BufferAllocStatic.NBR_PIXELS_IN_BUFFER config_mono_small = 80
    ∧ BufferAllocStatic.NBR_PIXELS_IN_BUFFER config_mono_small < 128 := by
  decide

/-- Claim C9: in static mode `lvgl_allocate_rendering_buffers` returns
`-ENOTSUP` exactly when the live horizontal resolution exceeds
`CONFIG_LV_Z_HOR_RES_MAX` or the live vertical resolution exceeds
`CONFIG_LV_Z_VER_RES_MAX`, and 0 exactly when both fit; whatever the result,
a dimension that fits is written to the driver and a dimension that does not
fit leaves the driver field as it was; the descriptor is initialised with
`NBR_PIXELS_IN_BUFFER` pixels on every path. -/
theorem alloc_static_resolution_check (cfg : Kconfig) (cap : display_capabilities)
    (s : alloc_state) :
    ((BufferAllocStatic.lvgl_allocate_rendering_buffers cfg cap s).1 = -ENOTSUP ↔
      (cfg.CONFIG_LV_Z_HOR_RES_MAX < (cap.x_resolution : Int) ∨
        cfg.CONFIG_LV_Z_VER_RES_MAX < (cap.y_resolution : Int))) ∧
    ((BufferAllocStatic.lvgl_allocate_rendering_buffers cfg cap s).1 = 0 ↔
      ((cap.x_resolution : Int) ≤ cfg.CONFIG_LV_Z_HOR_RES_MAX ∧
        (cap.y_resolution : Int) ≤ cfg.CONFIG_LV_Z_VER_RES_MAX)) ∧
    (BufferAllocStatic.lvgl_allocate_rendering_buffers cfg cap s).2.disp_drv.hor_res
      = (if (cap.x_resolution : Int) ≤ cfg.CONFIG_LV_Z_HOR_RES_MAX then (cap.x_resolution : Int)
         else s.disp_drv.hor_res) ∧
    (BufferAllocStatic.lvgl_allocate_rendering_buffers cfg cap s).2.disp_drv.ver_res
      = (if (cap.y_resolution : Int) ≤ cfg.CONFIG_LV_Z_VER_RES_MAX then (cap.y_resolution : Int)
         else s.disp_drv.ver_res) ∧
    (∃ c, (BufferAllocStatic.lvgl_allocate_rendering_buffers cfg cap s).2.draw_buf_init
        = s.draw_buf_init ++ [c] ∧
      c.size_in_px_cnt = to_uint32 (BufferAllocStatic.NBR_PIXELS_IN_BUFFER cfg)) := by
  unfold BufferAllocStatic.lvgl_allocate_rendering_buffers
  by_cases hx : (cap.x_resolution : Int) ≤ cfg.CONFIG_LV_Z_HOR_RES_MAX <;>
    by_cases hy : (cap.y_resolution : Int) ≤ cfg.CONFIG_LV_Z_VER_RES_MAX <;>
    cases hd : cfg.CONFIG_LV_Z_DOUBLE_VDB <;>
    simp [hx, hy, hd, ENOTSUP] <;> omega

/-! ## Theorems: pointer input, rotation -/

/-- Claim C10, as amended: with swap, invert X and invert Y disabled, for
every resolution and every dequeued raw sample (x, y),
`lvgl_pointer_kscan_read` emits (y, y_resolution - x) under ROTATED_90,
(x_resolution - x, y_resolution - y) under ROTATED_180 and
(x_resolution - y, x) under ROTATED_270, with the state of the raw sample;
the raw sample (x = 5, y = 7) at ROTATED_90 with resolution (100, 200) gives
(7, 195). -/
theorem kscan_read_rotation_formulas (cfg : Kconfig) (cap : display_capabilities)
    (raw : lv_indev_data_t) (q : List lv_indev_data_t) (last : lv_indev_data_t)
    (hswap : cfg.CONFIG_LV_Z_POINTER_KSCAN_SWAP_XY = false)
    (hinvx : cfg.CONFIG_LV_Z_POINTER_KSCAN_INVERT_X = false)
    (hinvy : cfg.CONFIG_LV_Z_POINTER_KSCAN_INVERT_Y = false) :
    (cap.current_orientation = display_orientation.DISPLAY_ORIENTATION_ROTATED_90 →
      (lvgl_pointer_kscan_read cfg cap { kscan_msgq := raw :: q, prev := last }).1
        = { point := { x := raw.point.y, y := (cap.y_resolution : Int) - raw.point.x },
            state := raw.state }) ∧
    (cap.current_orientation = display_orientation.DISPLAY_ORIENTATION_ROTATED_180 →
      (lvgl_pointer_kscan_read cfg cap { kscan_msgq := raw :: q, prev := last }).1
        = { point := { x := (cap.x_resolution : Int) - raw.point.x,
                       y := (cap.y_resolution : Int) - raw.point.y },
            state := raw.state }) ∧
    (cap.current_orientation = display_orientation.DISPLAY_ORIENTATION_ROTATED_270 →
      (lvgl_pointer_kscan_read cfg cap { kscan_msgq := raw :: q, prev := last }).1
        = { point := { x := (cap.x_resolution : Int) - raw.point.y, y := raw.point.x },
            state := raw.state }) ∧
    (lvgl_pointer_kscan_read cfg cap_100x200_rotated_90
        { kscan_msgq := { point := { x := 5, y := 7 }, state := raw.state } :: q,
          prev := last }).1
      = { point := { x := 7, y := 195 }, state := raw.state } := by
  refine ⟨fun ho => ?_, fun ho => ?_, fun ho => ?_, ?_⟩
  · simp [lvgl_pointer_kscan_read, k_msgq_get, hswap, hinvx, hinvy, ho]
  · simp [lvgl_pointer_kscan_read, k_msgq_get, hswap, hinvx, hinvy, ho]
  · simp [lvgl_pointer_kscan_read, k_msgq_get, hswap, hinvx, hinvy, ho]
  · simp [lvgl_pointer_kscan_read, k_msgq_get, hswap, hinvx, hinvy, cap_100x200_rotated_90]

/-- Instance of claim C10 as amended: a build without pointer adjustment, a
display of 100 by 200 rotated by 90 degrees, the raw sample (5, 7). -/
theorem kscan_read_rotation_formulas_witness :
    (config_full_frame.CONFIG_LV_Z_POINTER_KSCAN_SWAP_XY = false ∧
      config_full_frame.CONFIG_LV_Z_POINTER_KSCAN_INVERT_X = false ∧
      config_full_frame.CONFIG_LV_Z_POINTER_KSCAN_INVERT_Y = false) ∧
    (lvgl_pointer_kscan_read config_full_frame cap_100x200_rotated_90
        { kscan_msgq := [{ point := { x := 5, y := 7 },
                           state := lv_indev_state_t.LV_INDEV_STATE_PR }],
          prev := prev_init }).1
      = { point := { x := 7, y := 195 }, state := lv_indev_state_t.LV_INDEV_STATE_PR } :=
  ⟨⟨rfl, rfl, rfl⟩,
    (kscan_read_rotation_formulas config_full_frame cap_100x200_rotated_90
      { point := { x := 5, y := 7 }, state := lv_indev_state_t.LV_INDEV_STATE_PR } []
      prev_init rfl rfl rfl).2.2.2⟩

/-- Claim C10 as stated fails at its own example: with all flags off, the raw
sample (x = 5, y = 7) at ROTATED_90 with resolution (100, 200) is not mapped
to (7, 193); the emitted point is (7, 195), that is (y, y_resolution - x). -/
theorem kscan_read_rotated_90_example_not_193 :
    (lvgl_pointer_kscan_read config_full_frame cap_100x200_rotated_90
        { kscan_msgq := [{ point := { x := 5, y := 7 },
                           state := lv_indev_state_t.LV_INDEV_STATE_PR }],
          prev := prev_init }).1.point ≠ { x := 7, y := 193 } ∧
    (lvgl_pointer_kscan_read config_full_frame cap_100x200_rotated_90
        { kscan_msgq := [{ point := { x := 5, y := 7 },
                           state := lv_indev_state_t.LV_INDEV_STATE_PR }],
          prev := prev_init }).1.point = { x := 7, y := 195 } := by
  decide

/-! ## Lemmas: polls of the pointer path -/

theorem kscan_read_cons (cfg : Kconfig) (cap : display_capabilities)
    (raw : lv_indev_data_t) (q : List lv_indev_data_t) (last : lv_indev_data_t) :
    lvgl_pointer_kscan_read cfg cap { kscan_msgq := raw :: q, prev := last }
      = (spec_transform cfg cap raw, { kscan_msgq := q, prev := spec_transform cfg cap raw }) := by
  obtain ⟨xr, yr, fmt, o, hx, hy⟩ := cap
  obtain ⟨⟨x, y⟩, st⟩ := raw
  cases o <;>
    cases hs : cfg.CONFIG_LV_Z_POINTER_KSCAN_SWAP_XY <;>
    cases hix : cfg.CONFIG_LV_Z_POINTER_KSCAN_INVERT_X <;>
    cases hiy : cfg.CONFIG_LV_Z_POINTER_KSCAN_INVERT_Y <;>
    simp [lvgl_pointer_kscan_read, k_msgq_get, spec_transform, spec_rotate, spec_invert_x,
      spec_invert_y, spec_swap, spec_limit_x, spec_limit_y, hs, hix, hiy]

theorem kscan_read_nil (cfg : Kconfig) (cap : display_capabilities) (last : lv_indev_data_t) :
    lvgl_pointer_kscan_read cfg cap { kscan_msgq := [], prev := last }
      = (last, { kscan_msgq := [], prev := last }) := by
  simp [lvgl_pointer_kscan_read, k_msgq_get]

theorem spec_transform_plain (cfg : Kconfig) (cap : display_capabilities) (raw : lv_indev_data_t)
    (hswap : cfg.CONFIG_LV_Z_POINTER_KSCAN_SWAP_XY = false)
    (hinvx : cfg.CONFIG_LV_Z_POINTER_KSCAN_INVERT_X = false)
    (hinvy : cfg.CONFIG_LV_Z_POINTER_KSCAN_INVERT_Y = false)
    (hnormal : cap.current_orientation = display_orientation.DISPLAY_ORIENTATION_NORMAL) :
    spec_transform cfg cap raw = raw := by
  simp [spec_transform, spec_rotate, spec_invert_x, spec_invert_y, spec_swap, hswap, hinvx,
    hinvy, hnormal]

theorem poll_each_drain (cfg : Kconfig) (caps : List display_capabilities) :
    ∀ (q rest : List lv_indev_data_t) (last : lv_indev_data_t), caps.length = q.length →
      (poll_each cfg caps { kscan_msgq := q ++ rest, prev := last }).1
          = List.zipWith (spec_transform cfg) caps q ∧
        (poll_each cfg caps { kscan_msgq := q ++ rest, prev := last }).2.kscan_msgq = rest := by
  induction caps with
  | nil =>
    intro q rest last hlen
    have hq : q = [] := List.length_eq_zero.mp hlen.symm
    subst hq
    simp [poll_each]
  | cons cap caps ih =>
    intro q rest last hlen
    cases q with
    | nil => simp at hlen
    | cons m q =>
      have hlen2 : caps.length = q.length := by simpa using hlen
      have h := ih q rest (spec_transform cfg cap m) hlen2
      simp only [poll_each, List.cons_append, kscan_read_cons, List.zipWith_cons_cons]
      exact ⟨by rw [h.1], h.2⟩

theorem kscan_read_of_head (cfg : Kconfig) (cap : display_capabilities) (s : kscan_state)
    (raw : lv_indev_data_t) (q : List lv_indev_data_t) (h : s.kscan_msgq = raw :: q) :
    (lvgl_pointer_kscan_read cfg cap s).1 = spec_transform cfg cap raw := by
  obtain ⟨sq, sp⟩ := s
  simp only at h
  subst h
  rw [kscan_read_cons]

/-! ## Theorems: pointer input, queue and idle polls -/

/-- Claim C11: under NORMAL orientation with swap, invert X and invert Y
disabled, a scan event (row, col, pressed) given to
`lvgl_pointer_kscan_callback` while the queue has room is appended to the
queue without an error message, and once the samples queued before it have
been polled (under any capabilities), `lvgl_pointer_kscan_read` emits exactly
x = col, y = row, state = PRESSED if pressed else RELEASED, for any
resolution. -/
theorem kscan_callback_then_read_identity (cfg : Kconfig) (s : kscan_state) (row col : Nat)
    (pressed : Bool) (caps : List display_capabilities) (cap : display_capabilities)
    (hswap : cfg.CONFIG_LV_Z_POINTER_KSCAN_SWAP_XY = false)
    (hinvx : cfg.CONFIG_LV_Z_POINTER_KSCAN_INVERT_X = false)
    (hinvy : cfg.CONFIG_LV_Z_POINTER_KSCAN_INVERT_Y = false)
    (hnormal : cap.current_orientation = display_orientation.DISPLAY_ORIENTATION_NORMAL)
    (hroom : s.kscan_msgq.length < cfg.CONFIG_LV_Z_POINTER_KSCAN_MSGQ_COUNT)
    (hlen : caps.length = s.kscan_msgq.length) :
    lvgl_pointer_kscan_callback cfg s row col pressed
      = some ([], { kscan_msgq := s.kscan_msgq ++
                      [{ point := { x := (col : Int), y := (row : Int) },
                         state := if pressed then lv_indev_state_t.LV_INDEV_STATE_PR
                                  else lv_indev_state_t.LV_INDEV_STATE_REL }],
                    prev := s.prev }) ∧
    (lvgl_pointer_kscan_read cfg cap
        (poll_each cfg caps
          { kscan_msgq := s.kscan_msgq ++
              [{ point := { x := (col : Int), y := (row : Int) },
                 state := if pressed then lv_indev_state_t.LV_INDEV_STATE_PR
                          else lv_indev_state_t.LV_INDEV_STATE_REL }],
            prev := s.prev }).2).1
      = { point := { x := (col : Int), y := (row : Int) },
          state := if pressed then lv_indev_state_t.LV_INDEV_STATE_PR
                   else lv_indev_state_t.LV_INDEV_STATE_REL } := by
  constructor
  · simp [lvgl_pointer_kscan_callback, k_msgq_put, hroom]
  · have h := (poll_each_drain cfg caps s.kscan_msgq
      [{ point := { x := (col : Int), y := (row : Int) },
         state := if pressed then lv_indev_state_t.LV_INDEV_STATE_PR
                  else lv_indev_state_t.LV_INDEV_STATE_REL }] s.prev hlen).2
    rw [kscan_read_of_head cfg cap _ _ [] h]
    exact spec_transform_plain cfg cap _ hswap hinvx hinvy hnormal

/-- Instance of claim C11: the event (row 20, col 10, pressed) on an empty queue
is emitted as (10, 20, PRESSED). -/
theorem kscan_callback_then_read_identity_witness :
    (config_full_frame.CONFIG_LV_Z_POINTER_KSCAN_SWAP_XY = false ∧
      config_full_frame.CONFIG_LV_Z_POINTER_KSCAN_INVERT_X = false ∧
      config_full_frame.CONFIG_LV_Z_POINTER_KSCAN_INVERT_Y = false ∧
      cap_320x240_rgb565.current_orientation = display_orientation.DISPLAY_ORIENTATION_NORMAL ∧
      ([] : List lv_indev_data_t).length < config_full_frame.CONFIG_LV_Z_POINTER_KSCAN_MSGQ_COUNT) ∧
    lvgl_pointer_kscan_callback config_full_frame { kscan_msgq := [], prev := prev_init } 20 10 true
      = some ([], { kscan_msgq := [{ point := { x := 10, y := 20 },
                                     state := lv_indev_state_t.LV_INDEV_STATE_PR }],
                    prev := prev_init }) ∧
    (lvgl_pointer_kscan_read config_full_frame cap_320x240_rgb565
        { kscan_msgq := [{ point := { x := 10, y := 20 },
                           state := lv_indev_state_t.LV_INDEV_STATE_PR }],
          prev := prev_init }).1
      = { point := { x := 10, y := 20 }, state := lv_indev_state_t.LV_INDEV_STATE_PR } :=
  ⟨⟨rfl, rfl, rfl, rfl, by decide⟩,
    kscan_callback_then_read_identity config_full_frame { kscan_msgq := [], prev := prev_init }
      20 10 true [] cap_320x240_rgb565 rfl rfl rfl rfl (by decide) rfl⟩

/-- Claim C12: a poll by `lvgl_pointer_kscan_read` on an empty queue emits the
stored last sample and leaves the state as it was, for any orientation and
flags; a second poll right after an idle poll, or right after a poll that
dequeued the only queued sample, returns the same sample as the first; and a
poll in the initial state with an empty queue returns (0, 0, RELEASED). -/
theorem kscan_read_idle (cfg : Kconfig) (cap cap2 : display_capabilities)
    (last m : lv_indev_data_t) :
    lvgl_pointer_kscan_read cfg cap { kscan_msgq := [], prev := last }
      = (last, { kscan_msgq := [], prev := last }) ∧
    (lvgl_pointer_kscan_read cfg cap2
        (lvgl_pointer_kscan_read cfg cap { kscan_msgq := [], prev := last }).2).1
      = (lvgl_pointer_kscan_read cfg cap { kscan_msgq := [], prev := last }).1 ∧
    (lvgl_pointer_kscan_read cfg cap2
        (lvgl_pointer_kscan_read cfg cap { kscan_msgq := [m], prev := last }).2).1
      = (lvgl_pointer_kscan_read cfg cap { kscan_msgq := [m], prev := last }).1 ∧
    lvgl_pointer_kscan_read cfg cap { kscan_msgq := [], prev := prev_init }
      = ({ point := { x := 0, y := 0 }, state := lv_indev_state_t.LV_INDEV_STATE_REL },
         { kscan_msgq := [], prev := prev_init }) := by
  refine ⟨kscan_read_nil cfg cap last, ?_, ?_, kscan_read_nil cfg cap prev_init⟩
  · rw [kscan_read_nil, kscan_read_nil]
  · rw [kscan_read_cons, kscan_read_nil]

/-- Claim C13: with the queue a bounded FIFO of capacity
`CONFIG_LV_Z_POINTER_KSCAN_MSGQ_COUNT` that already holds that many samples,
`lvgl_pointer_kscan_callback` with any new sample returns (it is not left
waiting), gives the error message to `LOG_ERR` and leaves the static state,
queue included, as it was; the next polls, one per queued sample, emit the
transformed queued samples in their order and empty the queue, so the dropped
sample is never seen. On no state at all is the callback left waiting. -/
theorem kscan_callback_queue_full (cfg : Kconfig) (s : kscan_state) (row col : Nat)
    (pressed : Bool) (caps : List display_capabilities)
    (hfull : s.kscan_msgq.length = cfg.CONFIG_LV_Z_POINTER_KSCAN_MSGQ_COUNT)
    (hlen : caps.length = cfg.CONFIG_LV_Z_POINTER_KSCAN_MSGQ_COUNT) :
    lvgl_pointer_kscan_callback cfg s row col pressed
      = some (["Could put input data into queue"], s) ∧
    (poll_each cfg caps s).1 = List.zipWith (spec_transform cfg) caps s.kscan_msgq ∧
    (poll_each cfg caps s).2.kscan_msgq = [] ∧
    (∀ (s0 : kscan_state) (row0 col0 : Nat) (pressed0 : Bool),
      (lvgl_pointer_kscan_callback cfg s0 row0 col0 pressed0).isSome = true) := by
  refine ⟨?_, ?_, ?_, ?_⟩
  · simp [lvgl_pointer_kscan_callback, k_msgq_put, hfull, ENOMSG]
  · obtain ⟨q, p⟩ := s
    exact (poll_each_drain cfg caps q [] p (by simp at hfull; omega)).1 ▸ by simp
  · obtain ⟨q, p⟩ := s
    have h := (poll_each_drain cfg caps q [] p (by simp at hfull; omega)).2
    simpa using h
  · intro s0 row0 col0 pressed0
    by_cases hroom : s0.kscan_msgq.length < cfg.CONFIG_LV_Z_POINTER_KSCAN_MSGQ_COUNT <;>
      simp [lvgl_pointer_kscan_callback, k_msgq_put, hroom, ENOMSG]

/-- Instance of claim C13: a queue of capacity 10 holding 10 samples. -/
theorem kscan_callback_queue_full_witness :
    ((List.replicate 10 sample_3_4).length
        = config_full_frame.CONFIG_LV_Z_POINTER_KSCAN_MSGQ_COUNT ∧
      (List.replicate 10 cap_320x240_rgb565).length
        = config_full_frame.CONFIG_LV_Z_POINTER_KSCAN_MSGQ_COUNT) ∧
    lvgl_pointer_kscan_callback config_full_frame
        { kscan_msgq := List.replicate 10 sample_3_4, prev := prev_init } 20 10 true
      = some (["Could put input data into queue"],
          { kscan_msgq := List.replicate 10 sample_3_4, prev := prev_init }) :=
  ⟨⟨by decide, by decide⟩,
    (kscan_callback_queue_full config_full_frame
      { kscan_msgq := List.replicate 10 sample_3_4, prev := prev_init } 20 10 true
      (List.replicate 10 cap_320x240_rgb565) (by decide) (by decide)).1⟩

/-! ## Lemmas: the initialisation sequence -/

theorem alloc_static_codes (cfg : Kconfig) (cap : display_capabilities) (s : alloc_state) :
    (BufferAllocStatic.lvgl_allocate_rendering_buffers cfg cap s).1 = 0 ∨
      (BufferAllocStatic.lvgl_allocate_rendering_buffers cfg cap s).1 = -ENOTSUP := by
  unfold BufferAllocStatic.lvgl_allocate_rendering_buffers
  by_cases hx : (cap.x_resolution : Int) ≤ cfg.CONFIG_LV_Z_HOR_RES_MAX <;>
    by_cases hy : (cap.y_resolution : Int) ≤ cfg.CONFIG_LV_Z_VER_RES_MAX <;>
    simp [hx, hy]

theorem alloc_dynamic_codes (cfg : Kconfig) (cap : display_capabilities)
    (oracle : Nat → Bool) (s : alloc_state) :
    (BufferAllocDynamic.lvgl_allocate_rendering_buffers cfg cap oracle s).1 = 0 ∨
      (BufferAllocDynamic.lvgl_allocate_rendering_buffers cfg cap oracle s).1 = -ENOMEM ∨
      (BufferAllocDynamic.lvgl_allocate_rendering_buffers cfg cap oracle s).1 = -ENOTSUP := by
  unfold BufferAllocDynamic.lvgl_allocate_rendering_buffers LV_MEM_CUSTOM_ALLOC LV_MEM_CUSTOM_FREE
  cases hsz : BufferAllocDynamic.buf_size cap.current_pixel_format
      (BufferAllocDynamic.buf_nbr_pixels cfg
        { s.disp_drv with hor_res := (cap.x_resolution : Int), ver_res := (cap.y_resolution : Int) })
  · simp [hsz]
  · cases h0 : oracle s.heap.requests.length <;>
    cases h1 : oracle (s.heap.requests.length + 1) <;>
    cases h2 : oracle (s.heap.requests.length + 1 + 1) <;>
    cases hd : cfg.CONFIG_LV_Z_DOUBLE_VDB <;>
    simp [hsz, h0, h1, h2, hd]

theorem alloc_codes (icfg : Kconfig_init) (cfg : Kconfig) (cap : display_capabilities)
    (oracle : Nat → Bool) (s : alloc_state) :
    (lvgl_allocate_rendering_buffers icfg cfg cap oracle s).1 = 0 ∨
      (lvgl_allocate_rendering_buffers icfg cfg cap oracle s).1 = -ENOMEM ∨
      (lvgl_allocate_rendering_buffers icfg cfg cap oracle s).1 = -ENOTSUP := by
  unfold lvgl_allocate_rendering_buffers
  split_ifs
  · rcases alloc_static_codes cfg cap s with h | h
    · exact Or.inl h
    · exact Or.inr (Or.inr h)
  · exact alloc_dynamic_codes cfg cap oracle s

theorem lvgl_init_cases (cfg : Kconfig) (icfg : Kconfig_init) (env : init_env) (s : alloc_state) :
    (env.display_dev = 0 →
      lvgl_init cfg icfg env s = (-ENODEV, s, [collaborator_call.device_get_binding_display])) ∧
    (env.display_dev ≠ 0 →
      (lvgl_allocate_rendering_buffers icfg cfg env.cap env.oracle
        { s with disp_drv := env.lv_disp_drv_init }).1 ≠ 0 →
      lvgl_init cfg icfg env s
        = ((lvgl_allocate_rendering_buffers icfg cfg env.cap env.oracle
              { s with disp_drv := env.lv_disp_drv_init }).1,
           (lvgl_allocate_rendering_buffers icfg cfg env.cap env.oracle
              { s with disp_drv := env.lv_disp_drv_init }).2,
           calls_before_allocation icfg)) ∧
    (env.display_dev ≠ 0 →
      (lvgl_allocate_rendering_buffers icfg cfg env.cap env.oracle
        { s with disp_drv := env.lv_disp_drv_init }).1 = 0 →
      env.set_lvgl_rendering_cb ≠ 0 →
      lvgl_init cfg icfg env s
        = (-ENOTSUP,
           (lvgl_allocate_rendering_buffers icfg cfg env.cap env.oracle
              { s with disp_drv := env.lv_disp_drv_init }).2,
           calls_before_allocation icfg ++ [collaborator_call.set_lvgl_rendering_cb])) ∧
    (env.display_dev ≠ 0 →
      (lvgl_allocate_rendering_buffers icfg cfg env.cap env.oracle
        { s with disp_drv := env.lv_disp_drv_init }).1 = 0 →
      env.set_lvgl_rendering_cb = 0 → env.lv_disp_drv_register = 0 →
      lvgl_init cfg icfg env s
        = (-EPERM,
           (lvgl_allocate_rendering_buffers icfg cfg env.cap env.oracle
              { s with disp_drv := env.lv_disp_drv_init }).2,
           calls_before_allocation icfg ++ [collaborator_call.set_lvgl_rendering_cb,
             collaborator_call.lv_disp_drv_register])) ∧
    (env.display_dev ≠ 0 →
      (lvgl_allocate_rendering_buffers icfg cfg env.cap env.oracle
        { s with disp_drv := env.lv_disp_drv_init }).1 = 0 →
      env.set_lvgl_rendering_cb = 0 → env.lv_disp_drv_register ≠ 0 →
      lvgl_init cfg icfg env s
        = (0,
           (lvgl_allocate_rendering_buffers icfg cfg env.cap env.oracle
              { s with disp_drv := env.lv_disp_drv_init }).2,
           calls_before_allocation icfg ++ [collaborator_call.set_lvgl_rendering_cb,
             collaborator_call.lv_disp_drv_register]
             ++ (if icfg.CONFIG_LV_Z_POINTER_KSCAN then (lvgl_pointer_kscan_init env).2
                 else []))) := by
  refine ⟨fun h1 => ?_, fun h1 h3 => ?_, fun h1 h3 h4 => ?_, fun h1 h3 h4 h5 => ?_,
    fun h1 h3 h4 h5 => ?_⟩
  · simp [lvgl_init, h1]
  · cases hl : decide (icfg.CONFIG_LV_LOG_LEVEL ≠ 0) <;>
      cases hf : icfg.CONFIG_LV_Z_USE_FILESYSTEM <;>
      simp_all [lvgl_init, calls_before_allocation]
  · cases hl : decide (icfg.CONFIG_LV_LOG_LEVEL ≠ 0) <;>
      cases hf : icfg.CONFIG_LV_Z_USE_FILESYSTEM <;>
      simp_all [lvgl_init, calls_before_allocation]
  · cases hl : decide (icfg.CONFIG_LV_LOG_LEVEL ≠ 0) <;>
      cases hf : icfg.CONFIG_LV_Z_USE_FILESYSTEM <;>
      simp_all [lvgl_init, calls_before_allocation]
  · cases hl : decide (icfg.CONFIG_LV_LOG_LEVEL ≠ 0) <;>
      cases hf : icfg.CONFIG_LV_Z_USE_FILESYSTEM <;>
      cases hp : icfg.CONFIG_LV_Z_POINTER_KSCAN <;>
      simp_all [lvgl_init, calls_before_allocation]



theorem spec_failing_step_cases (env : init_env) (e : Int) (k : Nat)
    (h : spec_failing_step env e = some k) :
    (k = 1 ∧ env.display_dev = 0) ∨
    (k = 3 ∧ env.display_dev ≠ 0 ∧ e ≠ 0) ∨
    (k = 4 ∧ env.display_dev ≠ 0 ∧ e = 0 ∧ env.set_lvgl_rendering_cb ≠ 0) ∨
    (k = 5 ∧ env.display_dev ≠ 0 ∧ e = 0 ∧ env.set_lvgl_rendering_cb = 0 ∧
      env.lv_disp_drv_register = 0) := by
  unfold spec_failing_step at h
  split_ifs at h with h1 h3 h4 h5 <;> simp at h <;> subst h <;> simp_all

/-! ## Theorems: the initialisation sequence -/

/-- Claim C14: when a run of `lvgl_init` fails at step k of the sequence
(1 display lookup, 3 buffer allocation, 4 rendering-callback binding,
5 display-driver registration), `lvgl_init` returns a non-zero value and no
collaborator call of a later step occurs; when the display device is not
found it returns `-ENODEV`, leaves the allocator state untouched and makes no
display-driver and no input-driver registration call. -/
theorem lvgl_init_fail_fast (cfg : Kconfig) (icfg : Kconfig_init) (env : init_env)
    (s : alloc_state) (k : Nat)
    (hfail : spec_failing_step env
      (lvgl_allocate_rendering_buffers icfg cfg env.cap env.oracle
        { s with disp_drv := env.lv_disp_drv_init }).1 = some k) :
    (lvgl_init cfg icfg env s).1 ≠ 0 ∧
    (∀ j, k < j → ∀ c ∈ spec_step_calls j, c ∉ (lvgl_init cfg icfg env s).2.2) ∧
    (k = 1 →
      (lvgl_init cfg icfg env s).1 = -ENODEV ∧
      (lvgl_init cfg icfg env s).2.1 = s ∧
      (lvgl_init cfg icfg env s).2.2.count collaborator_call.lv_disp_drv_register = 0 ∧
      (lvgl_init cfg icfg env s).2.2.count collaborator_call.lv_indev_drv_register = 0) := by
  obtain ⟨c1, c3, c4, c5, -⟩ := lvgl_init_cases cfg icfg env s
  rcases spec_failing_step_cases env _ k hfail with ⟨hk, h1⟩ | ⟨hk, h1, h3⟩ | ⟨hk, h1, h3, h4⟩ |
    ⟨hk, h1, h3, h4, h5⟩
  · subst hk
    rw [c1 h1]
    refine ⟨by simp [ENODEV], ?_, fun _ => by simp⟩
    intro j hj c hc hmem
    unfold spec_step_calls at hc
    split at hc <;> cases c <;> first | (simp at hc hmem; done) | (simp at hc hmem; omega)
  · subst hk
    rw [c3 h1 h3]
    refine ⟨h3, ?_, fun h => by omega⟩
    intro j hj c hc hmem
    unfold spec_step_calls at hc
    split at hc <;> cases c <;> simp [calls_before_allocation] at hc hmem <;> omega
  · subst hk
    rw [c4 h1 h3 h4]
    refine ⟨by simp [ENOTSUP], ?_, fun h => by omega⟩
    intro j hj c hc hmem
    unfold spec_step_calls at hc
    split at hc <;> cases c <;> simp [calls_before_allocation] at hc hmem <;> omega
  · subst hk
    rw [c5 h1 h3 h4 h5]
    refine ⟨by simp [EPERM], ?_, fun h => by omega⟩
    intro j hj c hc hmem
    unfold spec_step_calls at hc
    split at hc <;> cases c <;> simp [calls_before_allocation] at hc hmem <;> omega



/-- Instance of claim C14: the display device is not found. -/
theorem lvgl_init_fail_fast_witness :
    spec_failing_step env_display_missing
      (lvgl_allocate_rendering_buffers init_config_dynamic config_full_frame
        env_display_missing.cap env_display_missing.oracle
        { fresh_state with disp_drv := env_display_missing.lv_disp_drv_init }).1 = some 1 ∧
    (lvgl_init config_full_frame init_config_dynamic env_display_missing fresh_state).1
      = -ENODEV ∧
    (lvgl_init config_full_frame init_config_dynamic env_display_missing fresh_state).2.1
      = fresh_state ∧
    (lvgl_init config_full_frame init_config_dynamic env_display_missing
      fresh_state).2.2.count collaborator_call.lv_disp_drv_register = 0 ∧
    (lvgl_init config_full_frame init_config_dynamic env_display_missing
      fresh_state).2.2.count collaborator_call.lv_indev_drv_register = 0 :=
  ⟨by decide,
    (lvgl_init_fail_fast config_full_frame init_config_dynamic env_display_missing fresh_state 1
      (by decide)).2.2 rfl⟩

/-- Claim C15, as amended: a run of `lvgl_init` that fails at the display
lookup returns `-ENODEV`, at the buffer allocation `-ENOMEM` or `-ENOTSUP`, at
the rendering-callback binding `-ENOTSUP`, at the display-driver registration
`-EPERM`; the codes of two runs failing at different steps differ, unless both
are `-ENOTSUP`, one run failing at the buffer allocation and the other at the
rendering-callback binding. -/
theorem lvgl_init_error_codes (cfg₁ cfg₂ : Kconfig) (icfg₁ icfg₂ : Kconfig_init)
    (env₁ env₂ : init_env) (s₁ s₂ : alloc_state) (a b : Nat)
    (ha : spec_failing_step env₁
      (lvgl_allocate_rendering_buffers icfg₁ cfg₁ env₁.cap env₁.oracle
        { s₁ with disp_drv := env₁.lv_disp_drv_init }).1 = some a)
    (hb : spec_failing_step env₂
      (lvgl_allocate_rendering_buffers icfg₂ cfg₂ env₂.cap env₂.oracle
        { s₂ with disp_drv := env₂.lv_disp_drv_init }).1 = some b)
    (hab : a ≠ b) :
    ((a = 1 → (lvgl_init cfg₁ icfg₁ env₁ s₁).1 = -ENODEV) ∧
      (a = 3 → (lvgl_init cfg₁ icfg₁ env₁ s₁).1 = -ENOMEM ∨
        (lvgl_init cfg₁ icfg₁ env₁ s₁).1 = -ENOTSUP) ∧
      (a = 4 → (lvgl_init cfg₁ icfg₁ env₁ s₁).1 = -ENOTSUP) ∧
      (a = 5 → (lvgl_init cfg₁ icfg₁ env₁ s₁).1 = -EPERM)) ∧
    ((lvgl_init cfg₁ icfg₁ env₁ s₁).1 ≠ (lvgl_init cfg₂ icfg₂ env₂ s₂).1 ∨
      ((lvgl_init cfg₁ icfg₁ env₁ s₁).1 = -ENOTSUP ∧
        (lvgl_init cfg₂ icfg₂ env₂ s₂).1 = -ENOTSUP ∧
        ((a = 3 ∧ b = 4) ∨ (a = 4 ∧ b = 3)))) := by
  have key : ∀ (cfg : Kconfig) (icfg : Kconfig_init) (env : init_env) (s : alloc_state) (k : Nat),
      spec_failing_step env
        (lvgl_allocate_rendering_buffers icfg cfg env.cap env.oracle
          { s with disp_drv := env.lv_disp_drv_init }).1 = some k →
      (k = 1 ∧ (lvgl_init cfg icfg env s).1 = -ENODEV) ∨
      (k = 3 ∧ ((lvgl_init cfg icfg env s).1 = -ENOMEM ∨
        (lvgl_init cfg icfg env s).1 = -ENOTSUP)) ∨
      (k = 4 ∧ (lvgl_init cfg icfg env s).1 = -ENOTSUP) ∨
      (k = 5 ∧ (lvgl_init cfg icfg env s).1 = -EPERM) := by
    intro cfg icfg env s k hk
    obtain ⟨c1, c3, c4, c5, -⟩ := lvgl_init_cases cfg icfg env s
    rcases spec_failing_step_cases env _ k hk with ⟨hk, h1⟩ | ⟨hk, h1, h3⟩ | ⟨hk, h1, h3, h4⟩ |
      ⟨hk, h1, h3, h4, h5⟩
    · exact Or.inl ⟨hk, by rw [c1 h1]⟩
    · refine Or.inr (Or.inl ⟨hk, ?_⟩)
      rw [c3 h1 h3]
      rcases alloc_codes icfg cfg env.cap env.oracle
        { s with disp_drv := env.lv_disp_drv_init } with h | h | h
      · exact absurd h h3
      · exact Or.inl h
      · exact Or.inr h
    · exact Or.inr (Or.inr (Or.inl ⟨hk, by rw [c4 h1 h3 h4]⟩))
    · exact Or.inr (Or.inr (Or.inr ⟨hk, by rw [c5 h1 h3 h4 h5]⟩))
  have ka := key cfg₁ icfg₁ env₁ s₁ a ha
  have kb := key cfg₂ icfg₂ env₂ s₂ b hb
  simp only [ENODEV, ENOMEM, ENOTSUP, EPERM] at ka kb ⊢
  constructor
  · rcases ka with ⟨h, e⟩ | ⟨h, e⟩ | ⟨h, e⟩ | ⟨h, e⟩ <;> subst h <;> simp [e]
  · rcases ka with ⟨h, e⟩ | ⟨h, e | e⟩ | ⟨h, e⟩ | ⟨h, e⟩ <;>
      rcases kb with ⟨h2, e2⟩ | ⟨h2, e2 | e2⟩ | ⟨h2, e2⟩ | ⟨h2, e2⟩ <;>
      subst h <;> subst h2 <;> simp [e, e2] at hab ⊢

/-- Instance of claim C15 as amended: one run fails at the display lookup, the
other at the display-driver registration. -/
theorem lvgl_init_error_codes_witness :
    (spec_failing_step env_display_missing
      (lvgl_allocate_rendering_buffers init_config_dynamic config_full_frame
        env_display_missing.cap env_display_missing.oracle
        { fresh_state with disp_drv := env_display_missing.lv_disp_drv_init }).1 = some 1 ∧
      spec_failing_step env_registration_fails
        (lvgl_allocate_rendering_buffers init_config_dynamic config_full_frame
          env_registration_fails.cap env_registration_fails.oracle
          { fresh_state with disp_drv := env_registration_fails.lv_disp_drv_init }).1 = some 5 ∧
      (1 : Nat) ≠ 5) ∧
    (lvgl_init config_full_frame init_config_dynamic env_display_missing fresh_state).1
      = -ENODEV :=
  ⟨⟨by decide, by decide, by decide⟩,
    (lvgl_init_error_codes config_full_frame config_full_frame init_config_dynamic
      init_config_dynamic env_display_missing env_registration_fails fresh_state fresh_state
      1 5 (by decide) (by decide) (by decide)).1.1 rfl⟩

/-- Claim C15 as stated fails: with static buffers, a run on a display wider
than the ceiling fails at the buffer allocation (step 3) and a run on a
display without rendering callback fails at the binding (step 4); both return
`-ENOTSUP`, so the codes of two runs failing at different steps do not always
differ. -/
theorem lvgl_init_enotsup_at_two_steps :
    spec_failing_step env_display_too_wide
      (lvgl_allocate_rendering_buffers init_config_static config_full_frame
        env_display_too_wide.cap env_display_too_wide.oracle
        { fresh_state with disp_drv := env_display_too_wide.lv_disp_drv_init }).1 = some 3 ∧
    spec_failing_step env_no_rendering_cb
      (lvgl_allocate_rendering_buffers init_config_static config_full_frame
        env_no_rendering_cb.cap env_no_rendering_cb.oracle
        { fresh_state with disp_drv := env_no_rendering_cb.lv_disp_drv_init }).1 = some 4 ∧
    (lvgl_init config_full_frame init_config_static env_display_too_wide fresh_state).1
      = -ENOTSUP ∧
    (lvgl_init config_full_frame init_config_static env_no_rendering_cb fresh_state).1
      = -ENOTSUP ∧
    ¬ ((lvgl_init config_full_frame init_config_static env_display_too_wide fresh_state).1
      ≠ (lvgl_init config_full_frame init_config_static env_no_rendering_cb fresh_state).1) := by
  decide

/-- Claim C16: with pointer support enabled, when steps 1 to 5 of `lvgl_init`
succeed, `lvgl_init` returns 0 and calls `lv_disp_drv_register` exactly once,
whatever `lvgl_pointer_kscan_init` does: it returns `-ENODEV` when the scan
device is not found or its configuration fails, `-EPERM` when the input-device
registration fails and 0 otherwise, and `lvgl_init` ignores that value. -/
theorem lvgl_init_pointer_failure_ignored (cfg : Kconfig) (icfg : Kconfig_init) (env : init_env)
    (s : alloc_state)
    (hpointer : icfg.CONFIG_LV_Z_POINTER_KSCAN = true)
    (hsteps : spec_failing_step env
      (lvgl_allocate_rendering_buffers icfg cfg env.cap env.oracle
        { s with disp_drv := env.lv_disp_drv_init }).1 = none) :
    (lvgl_init cfg icfg env s).1 = 0 ∧
    (lvgl_init cfg icfg env s).2.2.count collaborator_call.lv_disp_drv_register = 1 ∧
    (lvgl_init cfg icfg env s).2.2
      = calls_before_allocation icfg
        ++ [collaborator_call.set_lvgl_rendering_cb, collaborator_call.lv_disp_drv_register]
        ++ (lvgl_pointer_kscan_init env).2 ∧
    (env.kscan_dev = 0 → (lvgl_pointer_kscan_init env).1 = -ENODEV) ∧
    (env.kscan_dev ≠ 0 → env.kscan_config < 0 → (lvgl_pointer_kscan_init env).1 = -ENODEV) ∧
    (env.kscan_dev ≠ 0 → 0 ≤ env.kscan_config → env.lv_indev_drv_register = 0 →
      (lvgl_pointer_kscan_init env).1 = -EPERM) ∧
    (env.kscan_dev ≠ 0 → 0 ≤ env.kscan_config → env.lv_indev_drv_register ≠ 0 →
      (lvgl_pointer_kscan_init env).1 = 0) := by
  have hs : env.display_dev ≠ 0 ∧
      (lvgl_allocate_rendering_buffers icfg cfg env.cap env.oracle
        { s with disp_drv := env.lv_disp_drv_init }).1 = 0 ∧
      env.set_lvgl_rendering_cb = 0 ∧ env.lv_disp_drv_register ≠ 0 := by
    unfold spec_failing_step at hsteps
    split_ifs at hsteps with h1 h3 h4 h5
    exact ⟨h1, not_not.mp h3, not_not.mp h4, h5⟩
  obtain ⟨h1, h3, h4, h5⟩ := hs
  have c6 := (lvgl_init_cases cfg icfg env s).2.2.2.2 h1 h3 h4 h5
  rw [c6]
  refine ⟨rfl, ?_, by simp [hpointer], ?_, ?_, ?_, ?_⟩
  · simp only [hpointer, if_true]
    unfold lvgl_pointer_kscan_init calls_before_allocation
    split_ifs <;> simp
  · intro h; simp [lvgl_pointer_kscan_init, h]
  · intro h hcfg; simp [lvgl_pointer_kscan_init, h, hcfg]
  · intro h hcfg hreg
    have hn : ¬ env.kscan_config < 0 := by omega
    simp [lvgl_pointer_kscan_init, h, hn, hreg]
  · intro h hcfg hreg
    have hn : ¬ env.kscan_config < 0 := by omega
    simp [lvgl_pointer_kscan_init, h, hn, hreg]

/-- Instance of claim C16: the scan device is not found. -/
theorem lvgl_init_pointer_failure_ignored_witness :
    (init_config_dynamic.CONFIG_LV_Z_POINTER_KSCAN = true ∧
      spec_failing_step env_kscan_missing
        (lvgl_allocate_rendering_buffers init_config_dynamic config_full_frame
          env_kscan_missing.cap env_kscan_missing.oracle
          { fresh_state with disp_drv := env_kscan_missing.lv_disp_drv_init }).1 = none) ∧
    (lvgl_init config_full_frame init_config_dynamic env_kscan_missing fresh_state).1 = 0 ∧
    (lvgl_init config_full_frame init_config_dynamic env_kscan_missing
      fresh_state).2.2.count collaborator_call.lv_disp_drv_register = 1 :=
  ⟨⟨rfl, by decide⟩,
    (lvgl_init_pointer_failure_ignored config_full_frame init_config_dynamic env_kscan_missing
      fresh_state rfl (by decide)).1,
    (lvgl_init_pointer_failure_ignored config_full_frame init_config_dynamic env_kscan_missing
      fresh_state rfl (by decide)).2.1⟩

/-! ## Theorems: static buffer macros -/

theorem to_uint32_le_self (z : Int) (h : 0 ≤ z) : (to_uint32 z : Int) ≤ z := by
  unfold to_uint32
  omega

theorem static_macros_bounds (cfg : Kconfig)
    (hbpp : 0 < cfg.CONFIG_LV_Z_BITS_PER_PIXEL) (hvdb : 0 ≤ cfg.CONFIG_LV_Z_VDB_SIZE)
    (hhor : 0 ≤ cfg.CONFIG_LV_Z_HOR_RES_MAX) (hver : 0 ≤ cfg.CONFIG_LV_Z_VER_RES_MAX) :
    0 ≤ BufferAllocStatic.NBR_PIXELS_IN_BUFFER cfg ∧
    BufferAllocStatic.NBR_PIXELS_IN_BUFFER cfg * cfg.CONFIG_LV_Z_BITS_PER_PIXEL
      ≤ 8 * BufferAllocStatic.BUFFER_SIZE cfg ∧
    BufferAllocStatic.NBR_PIXELS_IN_BUFFER cfg
      ≤ (cfg.CONFIG_LV_Z_VDB_SIZE * cfg.CONFIG_LV_Z_HOR_RES_MAX * cfg.CONFIG_LV_Z_VER_RES_MAX)
          / 100 := by
  have hprod : 0 ≤ cfg.CONFIG_LV_Z_VDB_SIZE * cfg.CONFIG_LV_Z_HOR_RES_MAX
      * cfg.CONFIG_LV_Z_VER_RES_MAX := mul_nonneg (mul_nonneg hvdb hhor) hver
  have hP : Int.tdiv (cfg.CONFIG_LV_Z_VDB_SIZE * cfg.CONFIG_LV_Z_HOR_RES_MAX
      * cfg.CONFIG_LV_Z_VER_RES_MAX) 100
      = (cfg.CONFIG_LV_Z_VDB_SIZE * cfg.CONFIG_LV_Z_HOR_RES_MAX
        * cfg.CONFIG_LV_Z_VER_RES_MAX) / 100 := Int.tdiv_eq_ediv hprod (by omega)
  have hP0 : 0 ≤ (cfg.CONFIG_LV_Z_VDB_SIZE * cfg.CONFIG_LV_Z_HOR_RES_MAX
      * cfg.CONFIG_LV_Z_VER_RES_MAX) / 100 := Int.ediv_nonneg hprod (by omega)
  unfold BufferAllocStatic.NBR_PIXELS_IN_BUFFER BufferAllocStatic.BUFFER_SIZE
  rw [hP]
  generalize (cfg.CONFIG_LV_Z_VDB_SIZE * cfg.CONFIG_LV_Z_HOR_RES_MAX
      * cfg.CONFIG_LV_Z_VER_RES_MAX) / 100 = P at hP0
  generalize cfg.CONFIG_LV_Z_BITS_PER_PIXEL = bpp at hbpp
  have hbP : 0 ≤ bpp * P := mul_nonneg (le_of_lt hbpp) hP0
  have hB : Int.tdiv (bpp * P) 8 = bpp * P / 8 := Int.tdiv_eq_ediv hbP (by omega)
  rw [hB]
  have hB0 : 0 ≤ bpp * P / 8 := Int.ediv_nonneg hbP (by omega)
  have hB8 : bpp * P / 8 * 8 ≤ bpp * P := Int.ediv_mul_le _ (by omega)
  have hN : Int.tdiv (bpp * P / 8 * 8) bpp = bpp * P / 8 * 8 / bpp :=
    Int.tdiv_eq_ediv (by omega) (le_of_lt hbpp)
  rw [hN]
  refine ⟨Int.ediv_nonneg (by omega) (le_of_lt hbpp), ?_, ?_⟩
  · have := Int.ediv_mul_le (bpp * P / 8 * 8) (ne_of_gt hbpp)
    omega
  · calc bpp * P / 8 * 8 / bpp ≤ bpp * P / bpp := Int.ediv_le_ediv hbpp hB8
      _ = P := Int.mul_ediv_cancel_left P (ne_of_gt hbpp)

/-- Claim C17: in static mode, for bits per pixel above 0 and non-negative
percentage and maximum resolutions,
`NBR_PIXELS_IN_BUFFER * BITS_PER_PIXEL <= 8 * BUFFER_SIZE` and
`NBR_PIXELS_IN_BUFFER <= floor(VDB_SIZE * HOR_RES_MAX * VER_RES_MAX / 100)`,
and the pixel capacity that `lvgl_allocate_rendering_buffers` hands to
`lv_disp_draw_buf_init` satisfies the same two bounds. -/
theorem alloc_static_capacity_fits (cfg : Kconfig) (cap : display_capabilities)
    (s : alloc_state)
    (hbpp : 0 < cfg.CONFIG_LV_Z_BITS_PER_PIXEL) (hvdb : 0 ≤ cfg.CONFIG_LV_Z_VDB_SIZE)
    (hhor : 0 ≤ cfg.CONFIG_LV_Z_HOR_RES_MAX) (hver : 0 ≤ cfg.CONFIG_LV_Z_VER_RES_MAX) :
    BufferAllocStatic.NBR_PIXELS_IN_BUFFER cfg * cfg.CONFIG_LV_Z_BITS_PER_PIXEL
      ≤ 8 * BufferAllocStatic.BUFFER_SIZE cfg ∧
    BufferAllocStatic.NBR_PIXELS_IN_BUFFER cfg
      ≤ (cfg.CONFIG_LV_Z_VDB_SIZE * cfg.CONFIG_LV_Z_HOR_RES_MAX * cfg.CONFIG_LV_Z_VER_RES_MAX)
          / 100 ∧
    (∃ c, (BufferAllocStatic.lvgl_allocate_rendering_buffers cfg cap s).2.draw_buf_init
        = s.draw_buf_init ++ [c] ∧
      (c.size_in_px_cnt : Int) * cfg.CONFIG_LV_Z_BITS_PER_PIXEL
        ≤ 8 * BufferAllocStatic.BUFFER_SIZE cfg ∧
      (c.size_in_px_cnt : Int)
        ≤ (cfg.CONFIG_LV_Z_VDB_SIZE * cfg.CONFIG_LV_Z_HOR_RES_MAX
            * cfg.CONFIG_LV_Z_VER_RES_MAX) / 100) := by
  obtain ⟨h0, h1, h2⟩ := static_macros_bounds cfg hbpp hvdb hhor hver
  refine ⟨h1, h2, ?_⟩
  have hle := to_uint32_le_self _ h0
  have hmul : (to_uint32 (BufferAllocStatic.NBR_PIXELS_IN_BUFFER cfg) : Int)
      * cfg.CONFIG_LV_Z_BITS_PER_PIXEL
      ≤ BufferAllocStatic.NBR_PIXELS_IN_BUFFER cfg * cfg.CONFIG_LV_Z_BITS_PER_PIXEL :=
    mul_le_mul_of_nonneg_right hle (le_of_lt hbpp)
  unfold BufferAllocStatic.lvgl_allocate_rendering_buffers
  cases hd : cfg.CONFIG_LV_Z_DOUBLE_VDB <;>
    simp only [Bool.false_eq_true, if_false, if_true] <;>
    exact ⟨_, rfl, le_trans hmul h1, le_trans hle h2⟩

/-- Instance of claim C17: the monochrome build. -/
theorem alloc_static_capacity_fits_witness :
    (0 < config_mono_small.CONFIG_LV_Z_BITS_PER_PIXEL ∧
      0 ≤ config_mono_small.CONFIG_LV_Z_VDB_SIZE ∧
      0 ≤ config_mono_small.CONFIG_LV_Z_HOR_RES_MAX ∧
      0 ≤ config_mono_small.CONFIG_LV_Z_VER_RES_MAX) ∧
    BufferAllocStatic.NBR_PIXELS_IN_BUFFER config_mono_small
        * config_mono_small.CONFIG_LV_Z_BITS_PER_PIXEL
      ≤ 8 * BufferAllocStatic.BUFFER_SIZE config_mono_small :=
  ⟨by decide,
    (alloc_static_capacity_fits config_mono_small cap_128x64_mono fresh_state (by decide)
      (by decide) (by decide) (by decide)).1⟩

/-! ## Theorems: pointer input under ROTATED_180 -/

/-- Claim C18: under ROTATED_180 with invert X and invert Y enabled and swap
disabled, `lvgl_pointer_kscan_read` emits the dequeued raw sample unchanged,
for every resolution, which is also what it emits under NORMAL orientation
with all flags off. -/
theorem kscan_read_rotated_180_inverted_is_identity (cfg cfg0 : Kconfig)
    (cap cap0 : display_capabilities) (raw : lv_indev_data_t) (q : List lv_indev_data_t)
    (last : lv_indev_data_t)
    (hswap : cfg.CONFIG_LV_Z_POINTER_KSCAN_SWAP_XY = false)
    (hinvx : cfg.CONFIG_LV_Z_POINTER_KSCAN_INVERT_X = true)
    (hinvy : cfg.CONFIG_LV_Z_POINTER_KSCAN_INVERT_Y = true)
    (hrot : cap.current_orientation = display_orientation.DISPLAY_ORIENTATION_ROTATED_180)
    (hswap0 : cfg0.CONFIG_LV_Z_POINTER_KSCAN_SWAP_XY = false)
    (hinvx0 : cfg0.CONFIG_LV_Z_POINTER_KSCAN_INVERT_X = false)
    (hinvy0 : cfg0.CONFIG_LV_Z_POINTER_KSCAN_INVERT_Y = false)
    (hnormal : cap0.current_orientation = display_orientation.DISPLAY_ORIENTATION_NORMAL) :
    (lvgl_pointer_kscan_read cfg cap { kscan_msgq := raw :: q, prev := last }).1 = raw ∧
    (lvgl_pointer_kscan_read cfg cap { kscan_msgq := raw :: q, prev := last }).1
      = (lvgl_pointer_kscan_read cfg0 cap0 { kscan_msgq := raw :: q, prev := last }).1 := by
  have h1 : (lvgl_pointer_kscan_read cfg cap { kscan_msgq := raw :: q, prev := last }).1 = raw := by
    simp [lvgl_pointer_kscan_read, k_msgq_get, hswap, hinvx, hinvy, hrot]
  have h2 : (lvgl_pointer_kscan_read cfg0 cap0 { kscan_msgq := raw :: q, prev := last }).1
      = raw := by
    simp [lvgl_pointer_kscan_read, k_msgq_get, hswap0, hinvx0, hinvy0, hnormal]
  exact ⟨h1, h1.trans h2.symm⟩

/-- Instance of claim C18: the sample (3, 4) on the 100 by 200 display. -/
theorem kscan_read_rotated_180_inverted_is_identity_witness :
    (config_invert_xy.CONFIG_LV_Z_POINTER_KSCAN_SWAP_XY = false ∧
      config_invert_xy.CONFIG_LV_Z_POINTER_KSCAN_INVERT_X = true ∧
      config_invert_xy.CONFIG_LV_Z_POINTER_KSCAN_INVERT_Y = true ∧
      cap_100x200_rotated_180.current_orientation
        = display_orientation.DISPLAY_ORIENTATION_ROTATED_180 ∧
      config_full_frame.CONFIG_LV_Z_POINTER_KSCAN_SWAP_XY = false ∧
      config_full_frame.CONFIG_LV_Z_POINTER_KSCAN_INVERT_X = false ∧
      config_full_frame.CONFIG_LV_Z_POINTER_KSCAN_INVERT_Y = false ∧
      cap_320x240_rgb565.current_orientation
        = display_orientation.DISPLAY_ORIENTATION_NORMAL) ∧
    (lvgl_pointer_kscan_read config_invert_xy cap_100x200_rotated_180
        { kscan_msgq := [sample_3_4], prev := prev_init }).1 = sample_3_4 :=
  ⟨⟨rfl, rfl, rfl, rfl, rfl, rfl, rfl, rfl⟩,
    (kscan_read_rotated_180_inverted_is_identity config_invert_xy config_full_frame
      cap_100x200_rotated_180 cap_320x240_rgb565 sample_3_4 [] prev_init rfl rfl rfl rfl rfl rfl
      rfl rfl).1⟩

/-- Claim C19: under ROTATED_180 with all flags disabled, a dequeued raw
point with 0 <= x < x_resolution and 0 <= y < y_resolution is emitted as a
point with 1 <= x <= x_resolution and 1 <= y <= y_resolution, and the raw
origin (0, 0) is emitted as (x_resolution, y_resolution). -/
theorem kscan_read_rotated_180_range (cfg : Kconfig) (cap : display_capabilities)
    (raw : lv_indev_data_t) (q : List lv_indev_data_t) (last : lv_indev_data_t)
    (hswap : cfg.CONFIG_LV_Z_POINTER_KSCAN_SWAP_XY = false)
    (hinvx : cfg.CONFIG_LV_Z_POINTER_KSCAN_INVERT_X = false)
    (hinvy : cfg.CONFIG_LV_Z_POINTER_KSCAN_INVERT_Y = false)
    (hrot : cap.current_orientation = display_orientation.DISPLAY_ORIENTATION_ROTATED_180)
    (hx0 : 0 ≤ raw.point.x) (hx1 : raw.point.x < (cap.x_resolution : Int))
    (hy0 : 0 ≤ raw.point.y) (hy1 : raw.point.y < (cap.y_resolution : Int)) :
    (1 ≤ (lvgl_pointer_kscan_read cfg cap { kscan_msgq := raw :: q, prev := last }).1.point.x ∧
      (lvgl_pointer_kscan_read cfg cap { kscan_msgq := raw :: q, prev := last }).1.point.x
        ≤ (cap.x_resolution : Int)) ∧
    (1 ≤ (lvgl_pointer_kscan_read cfg cap { kscan_msgq := raw :: q, prev := last }).1.point.y ∧
      (lvgl_pointer_kscan_read cfg cap { kscan_msgq := raw :: q, prev := last }).1.point.y
        ≤ (cap.y_resolution : Int)) ∧
    (lvgl_pointer_kscan_read cfg cap
        { kscan_msgq := { point := { x := 0, y := 0 }, state := raw.state } :: q,
          prev := last }).1.point
      = { x := (cap.x_resolution : Int), y := (cap.y_resolution : Int) } := by
  have h : (lvgl_pointer_kscan_read cfg cap { kscan_msgq := raw :: q, prev := last }).1.point
      = { x := (cap.x_resolution : Int) - raw.point.x,
          y := (cap.y_resolution : Int) - raw.point.y } := by
    simp [lvgl_pointer_kscan_read, k_msgq_get, hswap, hinvx, hinvy, hrot]
  rw [h]
  refine ⟨⟨by simp only; omega, by simp only; omega⟩, ⟨by simp only; omega, by simp only; omega⟩, ?_⟩
  simp [lvgl_pointer_kscan_read, k_msgq_get, hswap, hinvx, hinvy, hrot]

/-- Instance of claim C19: the raw origin on the 100 by 200 display. -/
theorem kscan_read_rotated_180_range_witness :
    (config_full_frame.CONFIG_LV_Z_POINTER_KSCAN_SWAP_XY = false ∧
      config_full_frame.CONFIG_LV_Z_POINTER_KSCAN_INVERT_X = false ∧
      config_full_frame.CONFIG_LV_Z_POINTER_KSCAN_INVERT_Y = false ∧
      cap_100x200_rotated_180.current_orientation
        = display_orientation.DISPLAY_ORIENTATION_ROTATED_180 ∧
      0 ≤ sample_3_4.point.x ∧ sample_3_4.point.x < (cap_100x200_rotated_180.x_resolution : Int) ∧
      0 ≤ sample_3_4.point.y ∧
      sample_3_4.point.y < (cap_100x200_rotated_180.y_resolution : Int)) ∧
    (lvgl_pointer_kscan_read config_full_frame cap_100x200_rotated_180
        { kscan_msgq := [{ point := { x := 0, y := 0 }, state := sample_3_4.state }],
          prev := prev_init }).1.point
      = { x := (cap_100x200_rotated_180.x_resolution : Int),
          y := (cap_100x200_rotated_180.y_resolution : Int) } :=
  ⟨⟨rfl, rfl, rfl, rfl, by decide, by decide, by decide, by decide⟩,
    (kscan_read_rotated_180_range config_full_frame cap_100x200_rotated_180 sample_3_4 []
      prev_init rfl rfl rfl rfl (by decide) (by decide) (by decide) (by decide)).2.2⟩

/-! ## Theorems: the logging callback -/

/-- Claim C20, evaluated at the failing inputs: for every message text m,
`lvgl_log` called with the buffer "[Warn] " followed by m invokes `LOG_WRN`
with a space followed by m, because it skips `strlen("Warn] ") = 6`
characters and the tag has 7; for instance "[Warn] hello" yields " hello". The
tags "[Error] ", "[Info] " and "[Trace] " are removed whole. -/
theorem lvgl_log_warn_keeps_one_tag_character (m : List Char) :
    lvgl_log ("[Warn] ".toList ++ m) = some (log_macro_call.LOG_WRN, ' ' :: m) ∧
    strlen ("Warn] ") = 6 ∧ strlen ("[Warn] ") = 7 ∧
    lvgl_log ("[Warn] hello".toList) = some (log_macro_call.LOG_WRN, " hello".toList) ∧
    lvgl_log ("[Error] ".toList ++ m) = some (log_macro_call.LOG_ERR, m) ∧
    lvgl_log ("[Info] ".toList ++ m) = some (log_macro_call.LOG_INF, m) ∧
    lvgl_log ("[Trace] ".toList ++ m) = some (log_macro_call.LOG_DBG, m) := by
  refine ⟨?_, by decide, by decide, by decide, ?_, ?_, ?_⟩ <;> rfl

end LvglZephyr
